import Mathlib

/-!
# cert-manager-webhook-vkcloud: challenge fulfilment against the VK Cloud DNS API

A shallow embedding of `main.go`.  The solver talks to three collaborators that
are not part of the repository: the Kubernetes secret store, the HTTP transport
and the Go standard library (`encoding/json`, `net/url`, `strconv`).  They are
taken as parameters:

* `Lib` holds the pure library functions (JSON codecs, URL validation, `%q`);
* `Net σ` holds the two effectful operations (secret lookup, `http.Client.Do`)
  as transitions on an arbitrary world state `σ`.

Every function of `main.go` is a state-passing function over such a world.  A Go
`error` is represented by its message (`err.Error()`), so `fmt.Errorf("p: %w", e)`
is `"p: " ++ e`.  A nil-pointer dereference (a request that `http.NewRequest`
refused to build and whose error the code drops) is the outcome `panic`.
A timeout is a transport error like any other; `Initialize` is taken to have
run, so the Kubernetes client is there.

The second half of the file models the DNS provider (zones, records per zone,
create, list, delete by id) and runs `Present` and `CleanUp` against it.
-/

namespace VKCloud

/-! ## Strings -/

/-- Go `strings.HasSuffix`. -/
def HasSuffix (s suffix : String) : Bool :=
  suffix.data.isSuffixOf s.data

/-- Go `strings.TrimSuffix`: `s` without the trailing `suffix`, or `s` itself. -/
def TrimSuffix (s suffix : String) : String :=
  if HasSuffix s suffix then ⟨s.data.take (s.data.length - suffix.data.length)⟩ else s

def dnsAPIBaseURL : String := "https://mcs.mail.ru/public-dns/v2/dns/"

/-! ## Data model -/

/-- Kubernetes `corev1.SecretReference`. -/
structure SecretReference where
  Name : String
  Namespace : String
  deriving DecidableEq, Repr

/-- Solver configuration passed by cert-manager with each challenge. -/
structure vkcloudDNSConfig where
  SecretRef : SecretReference
  Domain : String
  deriving DecidableEq, Repr

/-- The fields of `acme.ChallengeRequest` the solver reads.  `Config` is the
`*extapi.JSON` pointer: `none` is nil, `some raw` carries the raw bytes. -/
structure ChallengeRequest where
  ResolvedFQDN : String
  ResolvedZone : String
  Key : String
  ResourceNamespace : String
  Config : Option String
  deriving DecidableEq, Repr

/-- The `Data` map of a Kubernetes secret. -/
structure Secret where
  Data : List (String × String)
  deriving DecidableEq, Repr

/-- Lookup `string(secret.Data[k])`: a missing key yields the empty string. -/
def Secret.get (s : Secret) (k : String) : String :=
  match s.Data.find? (fun p => p.1 == k) with
  | some p => p.2
  | none => ""

/-- One element of the zone listing, `struct { UUID; Name }` in `getZoneID`. -/
structure ZoneEntry where
  UUID : String
  Name : String
  deriving DecidableEq, Repr

/-- One element of `txt_records`, `struct { UUID; Name; Content }` in `deleteTXTRecord`. -/
structure TXTRecordEntry where
  UUID : String
  Name : String
  Content : String
  deriving DecidableEq, Repr

/-! ## HTTP -/

def headerSet (h : List (String × String)) (k v : String) : List (String × String) :=
  h.filter (fun p => p.1 != k) ++ [(k, v)]

def headerGet (h : List (String × String)) (k : String) : String :=
  match h.find? (fun p => p.1 == k) with
  | some p => p.2
  | none => ""

structure Request where
  Method : String
  URL : String
  Header : List (String × String)
  Body : String
  deriving DecidableEq, Repr

structure Response where
  StatusCode : Int
  Header : List (String × String)
  Body : String
  deriving DecidableEq, Repr

def Request.set (r : Request) (k v : String) : Request :=
  { r with Header := headerSet r.Header k v }

/-! ## Collaborators -/

/-- The pure standard-library functions the solver calls. -/
structure Lib where
  /-- URL validation of `http.NewRequest`: `some e` when the URL is rejected. -/
  ParseURL : String → Option String
  /-- Function `json.Unmarshal(raw, &cfg)` on a config: the value left in `cfg` and the error. -/
  UnmarshalConfig : String → vkcloudDNSConfig → vkcloudDNSConfig × Option String
  /-- Function `json.Unmarshal(body, &zones)`. -/
  UnmarshalZones : String → Except String (List ZoneEntry)
  /-- Function `json.Unmarshal(body, &recordsResponse)`, projected on `TXTRecords`. -/
  UnmarshalRecords : String → Except String (List TXTRecordEntry)
  /-- Function `json.Marshal` of the identity request: user name, password, domain id, project id. -/
  MarshalAuth : String → String → String → String → Except String String
  /-- Function `json.Marshal` of the record map: name, content, ttl. -/
  MarshalRecord : String → String → Int → String
  /-- The `%q` verb of `fmt`. -/
  Quote : String → String

/-- The effectful collaborators, as transitions on a world state `σ`. -/
structure Net (σ : Type) where
  /-- Call `clientset.CoreV1().Secrets(ns).Get(ctx, name, opts)`. -/
  GetSecret : String → String → σ → Except String Secret × σ
  /-- Call `(&http.Client{Timeout: t}).Do(req)`, `t` in seconds, `0` for no timeout. -/
  Do : Nat → Request → σ → Except String Response × σ

/-- What a Go function call ends in: a value with a nil error, a non-nil error
(its message), or a run-time panic. -/
inductive Outcome (α : Type) where
  | ok : α → Outcome α
  | err : String → Outcome α
  | panic : Outcome α
  deriving DecidableEq, Repr

/-- Go `http.NewRequest(method, url, body)` for the constant, valid methods used here. -/
def NewRequest (lib : Lib) (method url body : String) : Except String Request :=
  match lib.ParseURL url with
  | some e => .error e
  | none => .ok { Method := method, URL := url, Header := [], Body := body }

/-! ## The functions of `main.go` -/

section Code

variable {σ : Type}

/-- The zero value `vkcloudDNSConfig{}`. -/
def zeroConfig : vkcloudDNSConfig :=
  { SecretRef := { Name := "", Namespace := "" }, Domain := "" }

/-- Source `loadConfig`: the config value and the error, both returned in every case. -/
def loadConfig (lib : Lib) (cfgJSON : Option String) : vkcloudDNSConfig × Option String :=
  let cfg : vkcloudDNSConfig := zeroConfig
  match cfgJSON with
  | none => (cfg, none)
  | some raw =>
    match lib.UnmarshalConfig raw cfg with
    | (cfg1, some err) => (cfg1, some ("error decoding solver config: " ++ err))
    | (cfg1, none) => (cfg1, none)

/-- Source `authenticate`. -/
def authenticate (lib : Lib) (net : Net σ) (ns : String) (secretRef : SecretReference)
    (s : σ) : Outcome String × σ :=
  match net.GetSecret ns secretRef.Name s with
  | (.error e, s1) =>
    (.err ("failed to fetch secret " ++ lib.Quote secretRef.Name ++ ": " ++ e), s1)
  | (.ok secret, s1) =>
    let osAuthURL := secret.get "os_auth_url"
    let osUsername := secret.get "os_username"
    let osPassword := secret.get "os_password"
    let osProjectID := secret.get "os_project_id"
    let osDomainName := secret.get "os_domain_name"
    match lib.MarshalAuth osUsername osPassword osDomainName osProjectID with
    | .error e => (.err ("failed to marshal JSON: " ++ e), s1)
    | .ok jsonBody =>
      match NewRequest lib "POST" osAuthURL jsonBody with
      | .error _ => (.panic, s1)
      | .ok req =>
        let req := (req.set "Content-Type" "application/json").set "Accept" "application/json"
        match net.Do 0 req s1 with
        | (.error e, s2) => (.err ("authentication failed: " ++ e), s2)
        | (.ok resp, s2) =>
          let token := headerGet resp.Header "X-Subject-Token"
          if token = "" then (.err "no auth token received from VK Cloud", s2)
          else (.ok token, s2)

/-- The `for _, z := range zones` loop of `getZoneID`. -/
def getZoneID.loop (zone : String) : List ZoneEntry → Option String
  | [] => none
  | z :: zs =>
    if TrimSuffix z.Name "." = TrimSuffix zone "." then some z.UUID
    else getZoneID.loop zone zs

/-- Source `getZoneID`. -/
def getZoneID (lib : Lib) (net : Net σ) (zone token : String) (s : σ) : Outcome String × σ :=
  let url := dnsAPIBaseURL
  match NewRequest lib "GET" url "" with
  | .error _ => (.panic, s)
  | .ok req =>
    let req := req.set "X-Auth-Token" token
    match net.Do 30 req s with
    | (.error e, s1) => (.err ("failed to fetch zones: " ++ e), s1)
    | (.ok resp, s1) =>
      match lib.UnmarshalZones resp.Body with
      | .error e => (.err ("failed to parse zones response: " ++ e), s1)
      | .ok zones =>
        match getZoneID.loop zone zones with
        | some uuid => (.ok uuid, s1)
        | none => (.err ("zone not found for domain " ++ zone), s1)

/-- Source `createTXTRecord`. -/
def createTXTRecord (lib : Lib) (net : Net σ) (zoneID fqdn key token : String) (s : σ) :
    Outcome Unit × σ :=
  let url := dnsAPIBaseURL ++ zoneID ++ "/txt/"
  let jsonBody := lib.MarshalRecord fqdn key 60
  match NewRequest lib "POST" url jsonBody with
  | .error e => (.err ("failed to create HTTP request: " ++ e), s)
  | .ok req =>
    let req := (req.set "X-Auth-Token" token).set "Content-Type" "application/json"
    match net.Do 30 req s with
    | (.error e, s1) => (.err ("failed to create TXT record: " ++ e), s1)
    | (.ok resp, s1) =>
      if resp.StatusCode < 200 ∨ resp.StatusCode > 299 then
        (.err ("create failed with status " ++ toString resp.StatusCode ++ ": " ++ resp.Body), s1)
      else (.ok (), s1)

/-- The `for _, r := range recordsResponse.TXTRecords` loop of `deleteTXTRecord`:
the first record with the wanted name and content is deleted, then the loop breaks. -/
def deleteTXTRecord.loop (lib : Lib) (net : Net σ) (zoneID fqdn key token : String) :
    List TXTRecordEntry → σ → Outcome Unit × σ
  | [], s => (.ok (), s)
  | r :: rs, s =>
    if r.Name = fqdn ∧ r.Content = key then
      let deleteURL := dnsAPIBaseURL ++ zoneID ++ "/txt/" ++ r.UUID
      match NewRequest lib "DELETE" deleteURL "" with
      | .error _ => (.panic, s)
      | .ok delReq =>
        let delReq := delReq.set "X-Auth-Token" token
        match net.Do 10 delReq s with
        | (.error e, s1) => (.err e, s1)
        | (.ok _, s1) => (.ok (), s1)
    else deleteTXTRecord.loop lib net zoneID fqdn key token rs s

/-- Source `deleteTXTRecord`. -/
def deleteTXTRecord (lib : Lib) (net : Net σ) (zoneID fqdn key token : String) (s : σ) :
    Outcome Unit × σ :=
  let url := dnsAPIBaseURL ++ zoneID ++ "/txt/"
  match NewRequest lib "GET" url "" with
  | .error _ => (.panic, s)
  | .ok req =>
    let req := (req.set "X-Auth-Token" token).set "Content-Type" "application/json"
    match net.Do 10 req s with
    | (.error e, s1) => (.err e, s1)
    | (.ok resp, s1) =>
      match lib.UnmarshalRecords resp.Body with
      | .error e => (.err ("failed to parse TXT records: " ++ e), s1)
      | .ok records => deleteTXTRecord.loop lib net zoneID fqdn key token records s1

/-- Source `vkcloudDNSSolver.Present`. -/
def Present (lib : Lib) (net : Net σ) (ch : ChallengeRequest) (s : σ) : Outcome Unit × σ :=
  match loadConfig lib ch.Config with
  | (_, some err) => (.err err, s)
  | (cfg, none) =>
    match authenticate lib net ch.ResourceNamespace cfg.SecretRef s with
    | (.err e, s1) => (.err ("failed to authenticate to VK Cloud: " ++ e), s1)
    | (.panic, s1) => (.panic, s1)
    | (.ok authToken, s1) =>
      match getZoneID lib net ch.ResolvedZone authToken s1 with
      | (.err e, s2) => (.err ("failed to find zone ID: " ++ e), s2)
      | (.panic, s2) => (.panic, s2)
      | (.ok dnsZoneID, s2) =>
        match createTXTRecord lib net dnsZoneID ch.ResolvedFQDN ch.Key authToken s2 with
        | (.err e, s3) => (.err ("failed to create TXT record: " ++ e), s3)
        | (.panic, s3) => (.panic, s3)
        | (.ok _, s3) => (.ok (), s3)

/-- Source `vkcloudDNSSolver.CleanUp`. -/
def CleanUp (lib : Lib) (net : Net σ) (ch : ChallengeRequest) (s : σ) : Outcome Unit × σ :=
  let cfg := (loadConfig lib ch.Config).1
  match authenticate lib net ch.ResourceNamespace cfg.SecretRef s with
  | (.err e, s1) => (.err e, s1)
  | (.panic, s1) => (.panic, s1)
  | (.ok authToken, s1) =>
    match getZoneID lib net ch.ResolvedZone authToken s1 with
    | (.err e, s2) => (.err e, s2)
    | (.panic, s2) => (.panic, s2)
    | (.ok dnsZoneID, s2) =>
      match deleteTXTRecord lib net dnsZoneID ch.ResolvedFQDN ch.Key authToken s2 with
      | (.err e, s3) => (.err e, s3)
      | (.panic, s3) => (.panic, s3)
      | (.ok _, s3) => (.ok (), s3)

end Code

/-! ## Recording the calls made to the collaborators -/

/-- One call that leaves the process. -/
inductive Call where
  | getSecret (ns name : String)
  | http (timeout : Nat) (req : Request)
  deriving DecidableEq, Repr

/-- The transport `net` with a recorder in front of it: the state carries the
list of calls made so far, oldest first. -/
def Net.recorded {σ : Type} (net : Net σ) : Net (σ × List Call) where
  GetSecret ns name st :=
    ((net.GetSecret ns name st.1).1, ((net.GetSecret ns name st.1).2, st.2 ++ [Call.getSecret ns name]))
  Do t req st :=
    ((net.Do t req st.1).1, ((net.Do t req st.1).2, st.2 ++ [Call.http t req]))

/-- The request `getZoneID` sends. -/
def zonesRequest (token : String) : Request :=
  { Method := "GET", URL := dnsAPIBaseURL, Header := [("X-Auth-Token", token)], Body := "" }

/-- The listing request `deleteTXTRecord` sends. -/
def listRequest (zoneID token : String) : Request :=
  { Method := "GET", URL := dnsAPIBaseURL ++ zoneID ++ "/txt/",
    Header := [("X-Auth-Token", token), ("Content-Type", "application/json")], Body := "" }

/-- The DELETE request `deleteTXTRecord` sends for the record `uuid`. -/
def deleteRequest (zoneID uuid token : String) : Request :=
  { Method := "DELETE", URL := dnsAPIBaseURL ++ zoneID ++ "/txt/" ++ uuid,
    Header := [("X-Auth-Token", token)], Body := "" }

/-- The request `createTXTRecord` sends. -/
def createRequest (lib : Lib) (zoneID fqdn key token : String) : Request :=
  { Method := "POST", URL := dnsAPIBaseURL ++ zoneID ++ "/txt/",
    Header := [("X-Auth-Token", token), ("Content-Type", "application/json")],
    Body := lib.MarshalRecord fqdn key 60 }

/-- The request `authenticate` sends. -/
def authRequest (url body : String) : Request :=
  { Method := "POST", URL := url,
    Header := [("Content-Type", "application/json"), ("Accept", "application/json")],
    Body := body }

/-- The trailing-dot-insensitive comparison of `getZoneID`. -/
def zoneMatches (zone : String) (z : ZoneEntry) : Bool :=
  decide (TrimSuffix z.Name "." = TrimSuffix zone ".")

/-- The name-and-content comparison of `deleteTXTRecord`. -/
def recordMatches (fqdn key : String) (r : TXTRecordEntry) : Bool :=
  decide (r.Name = fqdn ∧ r.Content = key)

/-- The DELETE call (if any) that `deleteTXTRecord` makes for the record it
selected: none without a record or when the request cannot be built. -/
def deleteCalls (lib : Lib) (zoneID token : String) : Option TXTRecordEntry → List Call
  | none => []
  | some r =>
    match lib.ParseURL (dnsAPIBaseURL ++ zoneID ++ "/txt/" ++ r.UUID) with
    | none => [Call.http 10 (deleteRequest zoneID r.UUID token)]
    | some _ => []

/-- The DELETE request for the selected record is built and answered. -/
def deleteCompletes {σ : Type} (lib : Lib) (net : Net σ) (zoneID token : String) (s : σ) :
    Option TXTRecordEntry → Prop
  | none => True
  | some r =>
    lib.ParseURL (dnsAPIBaseURL ++ zoneID ++ "/txt/" ++ r.UUID) = none ∧
      ∃ resp s2, net.Do 10 (deleteRequest zoneID r.UUID token) s = (.ok resp, s2)

/-! ## A model of the provider

The DNS service as the solver sees it: a zone list and, per zone, a list of TXT
records in creation order.  Creating appends a record under a fresh id, deleting
by id removes the record with that id, listing returns all records of the zone.
The identity endpoint hands out one token.  The wire format is a parameter. -/

/-- A TXT record as the provider stores it. -/
structure TXTRecord where
  UUID : String
  Name : String
  Content : String
  TTL : Int
  deriving DecidableEq, Repr

/-- The provider state: zones, and records tagged with the id of their zone. -/
structure Cloud where
  Zones : List ZoneEntry
  Records : List (String × TXTRecord)
  deriving DecidableEq, Repr

/-- The static part of the provider and of the cluster. -/
structure Provider where
  AuthURL : String
  Token : String
  /-- The secret store: namespace, name. -/
  Secrets : String → String → Except String Secret
  RenderZones : List ZoneEntry → String
  RenderRecords : List TXTRecordEntry → String
  /-- The provider reading a create body: name, content, ttl. -/
  ReadRecord : String → Option (String × String × Int)
  /-- The id given to a new record, from the ids in use. -/
  FreshID : List String → String

/-- The records of one zone, as the listing shows them. -/
def Cloud.recordsOf (st : Cloud) (zid : String) : List TXTRecordEntry :=
  st.Records.filterMap
    (fun e => if e.1 = zid then some ⟨e.2.UUID, e.2.Name, e.2.Content⟩ else none)

/-- The stored records of one zone, ttl included. -/
def Cloud.storedOf (st : Cloud) (zid : String) : List TXTRecord :=
  st.Records.filterMap (fun e => if e.1 = zid then some e.2 else none)

def Cloud.hasZone (st : Cloud) (zid : String) : Bool :=
  st.Zones.any (fun z => decide (z.UUID = zid))

/-- Split a URL below the API base, `<zone id>/txt/<tail>`, into zone id and tail. -/
def route (url : String) : Option (String × String) :=
  if dnsAPIBaseURL.data.isPrefixOf url.data then
    let path := url.data.drop dnsAPIBaseURL.data.length
    let zid := path.takeWhile (fun c => c != '/')
    let rest := path.drop zid.length
    if "/txt/".data.isPrefixOf rest then some (⟨zid⟩, ⟨rest.drop 5⟩) else none
  else none

/-- Delete-by-id: drop the record `uuid` of zone `zid`. -/
def Cloud.delete (st : Cloud) (zid uuid : String) : Cloud :=
  { st with Records := st.Records.filter (fun e => !(decide (e.1 = zid) && decide (e.2.UUID = uuid))) }

/-- Create: append a record under a fresh id. -/
def Cloud.create (p : Provider) (st : Cloud) (zid name content : String) (ttl : Int) : Cloud :=
  { st with Records := st.Records ++
      [(zid, ⟨p.FreshID (st.Records.map (fun e => e.2.UUID)), name, content, ttl⟩)] }

/-- The provider answering one HTTP request. -/
def Provider.Do (p : Provider) (_t : Nat) (req : Request) (st : Cloud) :
    Except String Response × Cloud :=
  if req.URL = dnsAPIBaseURL then
    if req.Method = "GET" then (.ok ⟨200, [], p.RenderZones st.Zones⟩, st)
    else (.ok ⟨405, [], ""⟩, st)
  else
    match route req.URL with
    | some (zid, tail) =>
      if st.hasZone zid = false then (.ok ⟨404, [], ""⟩, st)
      else if req.Method = "DELETE" then (.ok ⟨204, [], ""⟩, st.delete zid tail)
      else if tail = "" ∧ req.Method = "GET" then
        (.ok ⟨200, [], p.RenderRecords (st.recordsOf zid)⟩, st)
      else if tail = "" ∧ req.Method = "POST" then
        match p.ReadRecord req.Body with
        | some (name, content, ttl) => (.ok ⟨201, [], ""⟩, st.create p zid name content ttl)
        | none => (.ok ⟨400, [], ""⟩, st)
      else (.ok ⟨405, [], ""⟩, st)
    | none =>
      if req.URL = p.AuthURL ∧ req.Method = "POST" then
        (.ok ⟨201, [("X-Subject-Token", p.Token)], ""⟩, st)
      else (.error "no such host", st)

/-- The provider and the secret store as the solver's transport. -/
def Provider.net (p : Provider) : Net Cloud where
  GetSecret ns name st := (p.Secrets ns name, st)
  Do := p.Do

/-- The library and the provider agree on the wire format. -/
structure Compatible (lib : Lib) (p : Provider) : Prop where
  zones : ∀ l, lib.UnmarshalZones (p.RenderZones l) = .ok l
  records : ∀ l, lib.UnmarshalRecords (p.RenderRecords l) = .ok l
  record : ∀ name content, p.ReadRecord (lib.MarshalRecord name content 60) = some (name, content, 60)
  auth : ∀ u pw d pr, ∃ b, lib.MarshalAuth u pw d pr = .ok b
  fresh : ∀ l, p.FreshID l ∉ l

/-- The setting of the end-to-end scenario: library and provider agree on the wire
format, the request carries a valid credential (its config decodes, the secret
exists and points to the identity endpoint, which lies outside the DNS API and
hands out a non-empty token), the URLs of the identity endpoint, of the zone
listing and of the record listing are well formed, and `zone` is the zone the
request resolves to, its id being a single path segment.  The URL of a DELETE
depends on the record and is asked for where a record is deleted. -/
structure Scenario (lib : Lib) (p : Provider) (ch : ChallengeRequest)
    (zones : List ZoneEntry) (zone : ZoneEntry) : Prop where
  compat : Compatible lib p
  config : (loadConfig lib ch.Config).2 = none
  secret : ∃ secret, p.Secrets ch.ResourceNamespace (loadConfig lib ch.Config).1.SecretRef.Name
      = .ok secret ∧ secret.get "os_auth_url" = p.AuthURL
  token : p.Token ≠ ""
  outside : dnsAPIBaseURL.data.isPrefixOf p.AuthURL.data = false
  authURL : lib.ParseURL p.AuthURL = none
  baseURL : lib.ParseURL dnsAPIBaseURL = none
  listURL : lib.ParseURL (dnsAPIBaseURL ++ zone.UUID ++ "/txt/") = none
  resolved : zones.find? (zoneMatches ch.ResolvedZone) = some zone
  segment : '/' ∉ zone.UUID.data

/-- A stored record as the listing shows it. -/
def TXTRecord.entry (r : TXTRecord) : TXTRecordEntry :=
  ⟨r.UUID, r.Name, r.Content⟩

/-- The provider state after a successful `CleanUp`: the first record of the zone
with the wanted name and content, if any, is deleted by id. -/
def Cloud.cleaned (st : Cloud) (zid fqdn key : String) : Cloud :=
  match (st.recordsOf zid).find? (recordMatches fqdn key) with
  | none => st
  | some r => st.delete zid r.UUID

/-- The records of a zone that carry the wanted name and content. -/
def Cloud.matching (st : Cloud) (zid fqdn key : String) : List TXTRecord :=
  (st.storedOf zid).filter (fun r => decide (r.Name = fqdn ∧ r.Content = key))

/-! ## A sample world

A small self-delimiting wire format (every character is escaped with `+`, an
item ends with `;`, the list ends with `!`), used to instantiate the library and
the provider on concrete inputs. -/

def wireItem : List Char → List Char
  | [] => [';']
  | c :: cs => '+' :: c :: wireItem cs

def wireEncode : List String → List Char
  | [] => ['!']
  | s :: ss => wireItem s.data ++ wireEncode ss

/-- The decoder; the flag tells that the previous character was the escape `+`. -/
def wireScan : Bool → List Char → Option (List String)
  | _, [] => none
  | true, c :: rest =>
    match wireScan false rest with
    | some (s :: ss) => some (⟨c :: s.data⟩ :: ss)
    | _ => none
  | false, c :: rest =>
    if c = '!' then some []
    else if c = ';' then
      match wireScan false rest with
      | some l => some ("" :: l)
      | none => none
    else if c = '+' then wireScan true rest
    else none

def wireDecode (cs : List Char) : Option (List String) :=
  wireScan false cs

def zoneItems : List ZoneEntry → List String
  | [] => []
  | z :: zs => z.UUID :: z.Name :: zoneItems zs

def itemsZones : List String → Option (List ZoneEntry)
  | [] => some []
  | [_] => none
  | u :: n :: rest =>
    match itemsZones rest with
    | some l => some (⟨u, n⟩ :: l)
    | none => none

def recordItems : List TXTRecordEntry → List String
  | [] => []
  | r :: rs => r.UUID :: r.Name :: r.Content :: recordItems rs

def itemsRecords : List String → Option (List TXTRecordEntry)
  | [] => some []
  | [_] => none
  | [_, _] => none
  | u :: n :: c :: rest =>
    match itemsRecords rest with
    | some l => some (⟨u, n, c⟩ :: l)
    | none => none

/-- A config payload that decodes cleanly. -/
def goodPayload : String :=
  "\x7b\"secretRef\":\x7b\"name\":\"vk-creds\"\x7d\x7d"

/-- A config payload whose `domain` has the wrong JSON type. -/
def mistypedPayload : String :=
  "\x7b\"secretRef\":\x7b\"name\":\"vk-creds\"\x7d,\"domain\":5\x7d"

/-- Function `json.Unmarshal` into a `vkcloudDNSConfig`, tabulated on the payloads used
below.  On `mistypedPayload` it stores `secretRef.name`, skips the mistyped
`domain` and reports an `UnmarshalTypeError`; anything else is a syntax error,
which leaves the target untouched. -/
def sampleUnmarshalConfig (raw : String) (cfg : vkcloudDNSConfig) :
    vkcloudDNSConfig × Option String :=
  if raw = goodPayload then
    ({ cfg with SecretRef := { cfg.SecretRef with Name := "vk-creds" } }, none)
  else if raw = mistypedPayload then
    ({ cfg with SecretRef := { cfg.SecretRef with Name := "vk-creds" } },
      some "json: cannot unmarshal number into Go struct field vkcloudDNSConfig.domain of type string")
  else (cfg, some "invalid character in solver config")

def sampleLib : Lib where
  ParseURL _ := none
  UnmarshalConfig := sampleUnmarshalConfig
  UnmarshalZones body :=
    match wireDecode body.data with
    | some items =>
      match itemsZones items with
      | some l => .ok l
      | none => .error "json: cannot unmarshal zones"
    | none => .error "unexpected end of JSON input"
  UnmarshalRecords body :=
    match wireDecode body.data with
    | some items =>
      match itemsRecords items with
      | some l => .ok l
      | none => .error "json: cannot unmarshal records"
    | none => .error "unexpected end of JSON input"
  MarshalAuth u pw d pr := .ok ⟨wireEncode [u, pw, d, pr]⟩
  MarshalRecord name content ttl := ⟨wireEncode [name, content, ⟨List.replicate ttl.toNat '1'⟩]⟩
  Quote s := "\"" ++ s ++ "\""

def sampleAuthURL : String := "https://infra.mail.ru:35357/v3/auth/tokens"

def sampleSecret : Secret :=
  ⟨[("os_auth_url", sampleAuthURL), ("os_username", "u"), ("os_password", "p"),
    ("os_project_id", "proj"), ("os_domain_name", "users")]⟩

def sampleProvider : Provider where
  AuthURL := sampleAuthURL
  Token := "tok"
  Secrets ns name :=
    if ns = "cert-manager" ∧ name = "vk-creds" then .ok sampleSecret
    else .error ("secrets " ++ name ++ " not found")
  RenderZones l := ⟨wireEncode (zoneItems l)⟩
  RenderRecords l := ⟨wireEncode (recordItems l)⟩
  ReadRecord body :=
    match wireDecode body.data with
    | some [name, content, ttl] => some (name, content, (ttl.data.length : Int))
    | _ => none
  FreshID l := ⟨List.replicate (1 + (l.map (fun s => s.data.length)).sum) 'r'⟩

def sampleRequest (config : Option String) : ChallengeRequest :=
  { ResolvedFQDN := "_acme-challenge.example.com.", ResolvedZone := "example.com.",
    Key := "XYZ123", ResourceNamespace := "cert-manager", Config := config }

def sampleZones : List ZoneEntry := [⟨"z1", "example.com."⟩]

/-- A provider state with the zone and no records. -/
def emptyCloud : Cloud := ⟨sampleZones, []⟩

/-- A provider state holding the challenge record twice. -/
def duplicateCloud : Cloud :=
  ⟨sampleZones,
    [("z1", ⟨"r1", "_acme-challenge.example.com.", "XYZ123", 60⟩),
     ("z1", ⟨"r2", "_acme-challenge.example.com.", "XYZ123", 60⟩)]⟩

/-- A provider state holding the challenge record once. -/
def singleCloud : Cloud :=
  ⟨sampleZones, [("z1", ⟨"r1", "_acme-challenge.example.com.", "XYZ123", 60⟩)]⟩

/-- A transport in trouble: it answers a GET with status 500 and a body that lists
one record carrying the challenge of `sampleRequest`, and everything else with
`503 busy`.  It has no secrets. -/
def busyNet : Net Unit where
  GetSecret _ name st := (.error ("secrets " ++ name ++ " not found"), st)
  Do _ req st :=
    if req.Method = "GET" then
      (.ok ⟨500, [], sampleProvider.RenderRecords
        [⟨"r1", "_acme-challenge.example.com.", "XYZ123"⟩]⟩, st)
    else (.ok ⟨503, [], "busy"⟩, st)

/-- A cluster whose secret store works while no host can be reached. -/
def offlineNet : Net Unit where
  GetSecret ns name st := (sampleProvider.Secrets ns name, st)
  Do _ _ st := (.error "dial tcp: connection refused", st)

/-! ## Basic facts -/

set_option maxRecDepth 100000

theorem getZoneID_loop_eq_find (zone : String) (zones : List ZoneEntry) :
    getZoneID.loop zone zones = (zones.find? (zoneMatches zone)).map (fun z => z.UUID) := by
  induction zones with
  | nil => rfl
  | cons z zs ih =>
    by_cases h : TrimSuffix z.Name "." = TrimSuffix zone "."
    · simp [getZoneID.loop, zoneMatches, h]
    · simp [getZoneID.loop, zoneMatches, h, ih]

theorem TrimSuffix_append_dot (x : String) : TrimSuffix (x ++ ".") "." = x := by
  have h1 : (x ++ ".").data = x.data ++ ['.'] := by simp [String.data_append]
  have h2 : HasSuffix (x ++ ".") "." = true := by
    simp [HasSuffix, h1]
  simp [TrimSuffix, h2, h1]

theorem TrimSuffix_of_not_hasSuffix (x : String) (h : HasSuffix x "." = false) :
    TrimSuffix x "." = x := by
  simp [TrimSuffix, h]

theorem NewRequest_ok (lib : Lib) (method url body : String) (h : lib.ParseURL url = none) :
    NewRequest lib method url body = .ok ⟨method, url, [], body⟩ := by
  simp [NewRequest, h]

theorem NewRequest_error (lib : Lib) (method url body e : String) (h : lib.ParseURL url = some e) :
    NewRequest lib method url body = .error e := by
  simp [NewRequest, h]

theorem zonesRequest_eq (token : String) :
    (⟨"GET", dnsAPIBaseURL, [], ""⟩ : Request).set "X-Auth-Token" token = zonesRequest token := by
  rfl

theorem listRequest_eq (zoneID token : String) :
    ((⟨"GET", dnsAPIBaseURL ++ zoneID ++ "/txt/", [], ""⟩ : Request).set "X-Auth-Token" token).set
      "Content-Type" "application/json" = listRequest zoneID token := by
  simp [Request.set, headerSet, listRequest]

theorem createRequest_eq (lib : Lib) (zoneID fqdn key token : String) :
    ((⟨"POST", dnsAPIBaseURL ++ zoneID ++ "/txt/", [], lib.MarshalRecord fqdn key 60⟩ : Request).set
      "X-Auth-Token" token).set "Content-Type" "application/json"
      = createRequest lib zoneID fqdn key token := by
  simp [Request.set, headerSet, createRequest]

theorem deleteRequest_eq (zoneID uuid token : String) :
    (⟨"DELETE", dnsAPIBaseURL ++ zoneID ++ "/txt/" ++ uuid, [], ""⟩ : Request).set
      "X-Auth-Token" token = deleteRequest zoneID uuid token := by
  rfl

theorem recorded_Do {σ : Type} (net : Net σ) (t : Nat) (req : Request) (s : σ) (log : List Call) :
    net.recorded.Do t req (s, log)
      = ((net.Do t req s).1, ((net.Do t req s).2, log ++ [Call.http t req])) := rfl

theorem recorded_GetSecret {σ : Type} (net : Net σ) (ns name : String) (s : σ) (log : List Call) :
    net.recorded.GetSecret ns name (s, log)
      = ((net.GetSecret ns name s).1, ((net.GetSecret ns name s).2, log ++ [Call.getSecret ns name])) :=
  rfl

/-- The loop of `deleteTXTRecord` in closed form: it acts on the first matching record only. -/
theorem deleteTXTRecord_loop_eq {σ : Type} (lib : Lib) (net : Net σ)
    (zoneID fqdn key token : String) (records : List TXTRecordEntry) (s : σ) :
    deleteTXTRecord.loop lib net zoneID fqdn key token records s =
      match records.find? (recordMatches fqdn key) with
      | none => (.ok (), s)
      | some r =>
        match lib.ParseURL (dnsAPIBaseURL ++ zoneID ++ "/txt/" ++ r.UUID) with
        | some _ => (.panic, s)
        | none =>
          match net.Do 10 (deleteRequest zoneID r.UUID token) s with
          | (.error e, s1) => (.err e, s1)
          | (.ok _, s1) => (.ok (), s1) := by
  induction records with
  | nil => rfl
  | cons r rs ih =>
    by_cases h : r.Name = fqdn ∧ r.Content = key
    · have hm : recordMatches fqdn key r = true := by simp [recordMatches, h]
      simp only [deleteTXTRecord.loop, if_pos h, List.find?_cons, hm]
      cases hp : lib.ParseURL (dnsAPIBaseURL ++ zoneID ++ "/txt/" ++ r.UUID) with
      | some e => simp [NewRequest, hp]
      | none => simp [NewRequest, hp, deleteRequest_eq]
    · have hm : recordMatches fqdn key r = false := by simp [recordMatches, h]
      simp only [deleteTXTRecord.loop, if_neg h, List.find?_cons, hm, ih]

/-- Source `deleteTXTRecord` once the listing has been fetched and decoded. -/
theorem deleteTXTRecord_eq_loop {σ : Type} (lib : Lib) (net : Net σ)
    (zoneID fqdn key token : String) (s s1 : σ) (resp : Response) (records : List TXTRecordEntry)
    (hurl : lib.ParseURL (dnsAPIBaseURL ++ zoneID ++ "/txt/") = none)
    (hdo : net.Do 10 (listRequest zoneID token) s = (.ok resp, s1))
    (hdec : lib.UnmarshalRecords resp.Body = .ok records) :
    deleteTXTRecord lib net zoneID fqdn key token s
      = deleteTXTRecord.loop lib net zoneID fqdn key token records s1 := by
  simp [deleteTXTRecord, NewRequest, hurl, listRequest_eq, hdo, hdec]

theorem find_none_of_no_match (fqdn key : String) (records : List TXTRecordEntry)
    (hno : ∀ r ∈ records, ¬ (r.Name = fqdn ∧ r.Content = key)) :
    records.find? (recordMatches fqdn key) = none := by
  rw [List.find?_eq_none]
  intro r hr
  simpa [recordMatches] using hno r hr

/-! ## Zone lookup -/

/-- C1. Once the zone listing has been fetched and decoded into `L`, `getZoneID`
returns the uuid of the first entry of `L` whose name equals the requested zone
`Q` after `strings.TrimSuffix(_, ".")` on both sides, and it returns the
"zone not found" error exactly when no entry matches.  `TrimSuffix` removes one
trailing dot and nothing else. -/
theorem getZoneID_first_match {σ : Type} (lib : Lib) (net : Net σ) (Q token : String)
    (s s1 : σ) (resp : Response) (L : List ZoneEntry)
    (hurl : lib.ParseURL dnsAPIBaseURL = none)
    (hdo : net.Do 30 (zonesRequest token) s = (.ok resp, s1))
    (hdec : lib.UnmarshalZones resp.Body = .ok L) :
    (getZoneID lib net Q token s).1 =
        (match L.find? (zoneMatches Q) with
         | some z => .ok z.UUID
         | none => .err ("zone not found for domain " ++ Q))
    ∧ ((getZoneID lib net Q token s).1 = .err ("zone not found for domain " ++ Q)
        ↔ ∀ z ∈ L, TrimSuffix z.Name "." ≠ TrimSuffix Q ".")
    ∧ (∀ x : String, TrimSuffix (x ++ ".") "." = x)
    ∧ (∀ x : String, HasSuffix x "." = false → TrimSuffix x "." = x) := by
  have hval : (getZoneID lib net Q token s).1 =
      (match L.find? (zoneMatches Q) with
       | some z => .ok z.UUID
       | none => .err ("zone not found for domain " ++ Q)) := by
    simp only [getZoneID, NewRequest, hurl, zonesRequest_eq, hdo, hdec, getZoneID_loop_eq_find]
    cases L.find? (zoneMatches Q) <;> rfl
  refine ⟨hval, ?_, TrimSuffix_append_dot, TrimSuffix_of_not_hasSuffix⟩
  rw [hval]
  cases hf : L.find? (zoneMatches Q) with
  | none =>
    simp only [true_iff]
    intro z hz
    have := List.find?_eq_none.mp hf z hz
    simpa [zoneMatches] using this
  | some z =>
    have hz := List.find?_some hf
    have hmem := List.mem_of_find?_eq_some hf
    simp only [false_iff, reduceCtorEq]
    intro hall
    exact hall z hmem (by simpa [zoneMatches] using hz)

/-- C1, on the zone list of the specification: `example.com.` and `example.com`
both resolve to `z1`. -/
theorem getZoneID_first_match_witness :
    (getZoneID sampleLib sampleProvider.net "example.com." "tok" emptyCloud).1 = .ok "z1"
    ∧ (getZoneID sampleLib sampleProvider.net "example.com" "tok" emptyCloud).1 = .ok "z1" :=
  ⟨(getZoneID_first_match sampleLib sampleProvider.net "example.com." "tok" emptyCloud emptyCloud
      ⟨200, [], sampleProvider.RenderZones sampleZones⟩ sampleZones
      (by decide) (by rfl) (by rfl)).1,
   (getZoneID_first_match sampleLib sampleProvider.net "example.com" "tok" emptyCloud emptyCloud
      ⟨200, [], sampleProvider.RenderZones sampleZones⟩ sampleZones
      (by decide) (by rfl) (by rfl)).1⟩

/-! ## Record creation -/

/-- C2. When the create request is answered with status `code` and body `b`,
`createTXTRecord` returns nil exactly for `200 ≤ code ≤ 299`; for any other
status it returns the error `create failed with status <code>: <b>`, which
carries the decimal status code and the body. -/
theorem createTXTRecord_status {σ : Type} (lib : Lib) (net : Net σ)
    (zoneID fqdn key token : String) (s s1 : σ) (code : Int)
    (hd : List (String × String)) (b : String)
    (hurl : lib.ParseURL (dnsAPIBaseURL ++ zoneID ++ "/txt/") = none)
    (hdo : net.Do 30 (createRequest lib zoneID fqdn key token) s = (.ok ⟨code, hd, b⟩, s1)) :
    ((createTXTRecord lib net zoneID fqdn key token s).1 = .ok () ↔ 200 ≤ code ∧ code ≤ 299)
    ∧ (¬ (200 ≤ code ∧ code ≤ 299) →
        (createTXTRecord lib net zoneID fqdn key token s).1
          = .err ("create failed with status " ++ toString code ++ ": " ++ b)) := by
  by_cases h : code < 200 ∨ code > 299
  · have hv : (createTXTRecord lib net zoneID fqdn key token s).1
        = .err ("create failed with status " ++ toString code ++ ": " ++ b) := by
      simp only [createTXTRecord, NewRequest, hurl, createRequest_eq, hdo, if_pos h]
    refine ⟨?_, fun _ => hv⟩
    rw [hv]
    simp only [reduceCtorEq, false_iff]
    omega
  · have hv : (createTXTRecord lib net zoneID fqdn key token s).1 = .ok () := by
      simp only [createTXTRecord, NewRequest, hurl, createRequest_eq, hdo, if_neg h]
    refine ⟨?_, fun hn => absurd (by omega) hn⟩
    rw [hv]
    simp only [true_iff]
    omega

/-- C2, on a transport that answers the create request with `503 busy`. -/
theorem createTXTRecord_status_witness :
    (createTXTRecord sampleLib busyNet "z1" "_acme-challenge.example.com." "XYZ123" "tok" ()).1
      = .err "create failed with status 503: busy" :=
  (createTXTRecord_status sampleLib busyNet "z1" "_acme-challenge.example.com." "XYZ123" "tok"
    () () 503 [] "busy" (by decide) (by rfl)).2 (by decide)

/-! ## Record deletion -/

/-- The call log of `deleteTXTRecord` once the listing has been fetched and decoded:
the listing request, then the DELETE for the first matching record, if any. -/
theorem deleteTXTRecord_log {σ : Type} (lib : Lib) (net : Net σ)
    (zoneID fqdn key token : String) (s s1 : σ) (log : List Call)
    (resp : Response) (records : List TXTRecordEntry)
    (hurl : lib.ParseURL (dnsAPIBaseURL ++ zoneID ++ "/txt/") = none)
    (hdo : net.Do 10 (listRequest zoneID token) s = (.ok resp, s1))
    (hdec : lib.UnmarshalRecords resp.Body = .ok records) :
    (deleteTXTRecord lib net.recorded zoneID fqdn key token (s, log)).2.2
      = log ++ Call.http 10 (listRequest zoneID token)
          :: deleteCalls lib zoneID token (records.find? (recordMatches fqdn key)) := by
  have hdo2 : net.recorded.Do 10 (listRequest zoneID token) (s, log)
      = (.ok resp, (s1, log ++ [Call.http 10 (listRequest zoneID token)])) := by
    rw [recorded_Do, hdo]
  rw [deleteTXTRecord_eq_loop lib net.recorded zoneID fqdn key token _ _ resp records hurl hdo2 hdec,
    deleteTXTRecord_loop_eq]
  cases records.find? (recordMatches fqdn key) with
  | none => simp [deleteCalls]
  | some r =>
    cases hp : lib.ParseURL (dnsAPIBaseURL ++ zoneID ++ "/txt/" ++ r.UUID) with
    | some e => simp [deleteCalls, hp]
    | none =>
      simp only [deleteCalls, hp, recorded_Do]
      cases h1 : (net.Do 10 (deleteRequest zoneID r.UUID token) s1).1 <;> simp

/-- The result of `deleteTXTRecord` when the listing is fetched and decoded and the
DELETE, if one is due, is built and answered: nil. -/
theorem deleteTXTRecord_completes {σ : Type} (lib : Lib) (net : Net σ)
    (zoneID fqdn key token : String) (s s1 : σ) (resp : Response) (records : List TXTRecordEntry)
    (hurl : lib.ParseURL (dnsAPIBaseURL ++ zoneID ++ "/txt/") = none)
    (hdo : net.Do 10 (listRequest zoneID token) s = (.ok resp, s1))
    (hdec : lib.UnmarshalRecords resp.Body = .ok records)
    (hdel : deleteCompletes lib net zoneID token s1 (records.find? (recordMatches fqdn key))) :
    (deleteTXTRecord lib net zoneID fqdn key token s).1 = .ok () := by
  rw [deleteTXTRecord_eq_loop lib net zoneID fqdn key token s s1 resp records hurl hdo hdec,
    deleteTXTRecord_loop_eq]
  cases hf : records.find? (recordMatches fqdn key) with
  | none => rfl
  | some r =>
    rw [hf] at hdel
    obtain ⟨hp, resp2, s2, h2⟩ := hdel
    simp [hp, h2]

/-- C3. When the decoded listing holds no record with the wanted name and content,
`deleteTXTRecord` returns nil and its only request is the listing GET.  Hence two
calls in a row return nil both times when the second finds no matching record:
the first may have found and deleted one. -/
theorem deleteTXTRecord_absent_ok {σ : Type} (lib : Lib) (net : Net σ)
    (zoneID fqdn value token : String) (s s1 : σ) (log : List Call)
    (resp : Response) (records : List TXTRecordEntry)
    (hurl : lib.ParseURL (dnsAPIBaseURL ++ zoneID ++ "/txt/") = none)
    (hdo : net.Do 10 (listRequest zoneID token) s = (.ok resp, s1))
    (hdec : lib.UnmarshalRecords resp.Body = .ok records)
    (hno : ∀ r ∈ records, ¬ (r.Name = fqdn ∧ r.Content = value)) :
    deleteTXTRecord lib net.recorded zoneID fqdn value token (s, log)
        = (.ok (), (s1, log ++ [Call.http 10 (listRequest zoneID token)]))
    ∧ ∀ (s0 s0a : σ) (log0 : List Call) (resp0 : Response) (records0 : List TXTRecordEntry),
        net.Do 10 (listRequest zoneID token) s0 = (.ok resp0, s0a) →
        lib.UnmarshalRecords resp0.Body = .ok records0 →
        deleteCompletes lib net zoneID token s0a (records0.find? (recordMatches fqdn value)) →
        (deleteTXTRecord lib net.recorded zoneID fqdn value token (s0, log0)).2 = (s, log) →
        (deleteTXTRecord lib net.recorded zoneID fqdn value token (s0, log0)).1 = .ok ()
        ∧ deleteTXTRecord lib net.recorded zoneID fqdn value token
            (deleteTXTRecord lib net.recorded zoneID fqdn value token (s0, log0)).2
          = (.ok (), (s1, log ++ [Call.http 10 (listRequest zoneID token)])) := by
  have hdo2 : net.recorded.Do 10 (listRequest zoneID token) (s, log)
      = (.ok resp, (s1, log ++ [Call.http 10 (listRequest zoneID token)])) := by
    rw [recorded_Do, hdo]
  have hsecond : deleteTXTRecord lib net.recorded zoneID fqdn value token (s, log)
      = (.ok (), (s1, log ++ [Call.http 10 (listRequest zoneID token)])) := by
    rw [deleteTXTRecord_eq_loop lib net.recorded zoneID fqdn value token _ _ resp records hurl hdo2 hdec,
      deleteTXTRecord_loop_eq, find_none_of_no_match fqdn value records hno]
  refine ⟨hsecond, ?_⟩
  intro s0 s0a log0 resp0 records0 hdo0 hdec0 hdel0 hst
  have hdo02 : net.recorded.Do 10 (listRequest zoneID token) (s0, log0)
      = (.ok resp0, (s0a, log0 ++ [Call.http 10 (listRequest zoneID token)])) := by
    rw [recorded_Do, hdo0]
  have hdel02 : deleteCompletes lib net.recorded zoneID token
      (s0a, log0 ++ [Call.http 10 (listRequest zoneID token)])
      (records0.find? (recordMatches fqdn value)) := by
    cases hf : records0.find? (recordMatches fqdn value) with
    | none => trivial
    | some r =>
      rw [hf] at hdel0
      obtain ⟨hp, resp2, s2, h2⟩ := hdel0
      exact ⟨hp, resp2, (s2, _), by rw [recorded_Do, h2]⟩
  refine ⟨deleteTXTRecord_completes lib net.recorded zoneID fqdn value token _ _ resp0 records0
    hurl hdo02 hdec0 hdel02, ?_⟩
  rw [hst]
  exact hsecond

/-- C3, on the sample provider: the first call deletes the one matching record, the
second finds none; both return nil and the second sends the listing GET only. -/
theorem deleteTXTRecord_absent_ok_witness :
    (deleteTXTRecord sampleLib sampleProvider.net.recorded "z1" "_acme-challenge.example.com."
        "XYZ123" "tok" (singleCloud, [])).1 = .ok ()
    ∧ deleteTXTRecord sampleLib sampleProvider.net.recorded "z1" "_acme-challenge.example.com."
        "XYZ123" "tok"
        (deleteTXTRecord sampleLib sampleProvider.net.recorded "z1" "_acme-challenge.example.com."
          "XYZ123" "tok" (singleCloud, [])).2
      = (.ok (), (emptyCloud,
          [Call.http 10 (listRequest "z1" "tok"), Call.http 10 (deleteRequest "z1" "r1" "tok")]
            ++ [Call.http 10 (listRequest "z1" "tok")])) :=
  (deleteTXTRecord_absent_ok sampleLib sampleProvider.net "z1" "_acme-challenge.example.com."
    "XYZ123" "tok" emptyCloud emptyCloud
    [Call.http 10 (listRequest "z1" "tok"), Call.http 10 (deleteRequest "z1" "r1" "tok")]
    ⟨200, [], sampleProvider.RenderRecords []⟩ []
    (by decide) (by rfl) (by rfl) (by simp)).2
    singleCloud singleCloud [] ⟨200, [], sampleProvider.RenderRecords (singleCloud.recordsOf "z1")⟩
    (singleCloud.recordsOf "z1") (by rfl) (by rfl)
    ⟨by decide, ⟨204, [], ""⟩, emptyCloud, by rfl⟩ (by decide)

/-- C4. Once the listing is decoded, `deleteTXTRecord` sends after the listing GET at
most one further request: the DELETE keyed by the uuid of the first record, in
list order, whose name equals `fqdn` and whose content equals `value`.  No request
is made for any other record. -/
theorem deleteTXTRecord_first_match_only {σ : Type} (lib : Lib) (net : Net σ)
    (zoneID fqdn value token : String) (s s1 : σ) (log : List Call)
    (resp : Response) (records : List TXTRecordEntry)
    (hurl : lib.ParseURL (dnsAPIBaseURL ++ zoneID ++ "/txt/") = none)
    (hdo : net.Do 10 (listRequest zoneID token) s = (.ok resp, s1))
    (hdec : lib.UnmarshalRecords resp.Body = .ok records) :
    ((deleteTXTRecord lib net.recorded zoneID fqdn value token (s, log)).2.2
      = log ++ Call.http 10 (listRequest zoneID token)
          :: deleteCalls lib zoneID token (records.find? (recordMatches fqdn value)))
    ∧ (deleteCalls lib zoneID token (records.find? (recordMatches fqdn value))).length ≤ 1
    ∧ (∀ c ∈ deleteCalls lib zoneID token (records.find? (recordMatches fqdn value)),
        ∃ pre r post, records = pre ++ r :: post
          ∧ (∀ x ∈ pre, ¬ (x.Name = fqdn ∧ x.Content = value))
          ∧ r.Name = fqdn ∧ r.Content = value
          ∧ c = Call.http 10 (deleteRequest zoneID r.UUID token)) := by
  refine ⟨deleteTXTRecord_log lib net zoneID fqdn value token s s1 log resp records hurl hdo hdec,
    ?_, ?_⟩
  · cases records.find? (recordMatches fqdn value) with
    | none => simp [deleteCalls]
    | some r =>
      cases hp : lib.ParseURL (dnsAPIBaseURL ++ zoneID ++ "/txt/" ++ r.UUID) <;>
        simp [deleteCalls, hp]
  · intro c hc
    cases hf : records.find? (recordMatches fqdn value) with
    | none => rw [hf] at hc; simp [deleteCalls] at hc
    | some r =>
      rw [hf] at hc
      cases hp : lib.ParseURL (dnsAPIBaseURL ++ zoneID ++ "/txt/" ++ r.UUID) with
      | some e => simp [deleteCalls, hp] at hc
      | none =>
        simp only [deleteCalls, hp, List.mem_singleton] at hc
        obtain ⟨hr, pre, post, hsplit, hpre⟩ := List.find?_eq_some.mp hf
        have hr2 : r.Name = fqdn ∧ r.Content = value := by simpa [recordMatches] using hr
        refine ⟨pre, r, post, hsplit, ?_, hr2.1, hr2.2, hc⟩
        intro x hx hxm
        have hx2 := hpre x hx
        simp [recordMatches, hxm.1, hxm.2] at hx2

/-- C4, on two records with the same name and content: one call sends one DELETE,
for the first of them, and the provider is left with the second. -/
theorem deleteTXTRecord_first_match_only_witness :
    (deleteTXTRecord sampleLib sampleProvider.net.recorded "z1" "_acme-challenge.example.com."
        "XYZ123" "tok" (duplicateCloud, [])).2.2
      = [Call.http 10 (listRequest "z1" "tok"), Call.http 10 (deleteRequest "z1" "r1" "tok")]
    ∧ (deleteTXTRecord sampleLib sampleProvider.net "z1" "_acme-challenge.example.com."
        "XYZ123" "tok" duplicateCloud).2.Records
      = [("z1", ⟨"r2", "_acme-challenge.example.com.", "XYZ123", 60⟩)] :=
  ⟨(deleteTXTRecord_first_match_only sampleLib sampleProvider.net "z1"
      "_acme-challenge.example.com." "XYZ123" "tok" duplicateCloud duplicateCloud []
      ⟨200, [], sampleProvider.RenderRecords (duplicateCloud.recordsOf "z1")⟩
      (duplicateCloud.recordsOf "z1") (by decide) (by rfl) (by rfl)).1, by decide⟩

/-- C10. The status codes `c1` of the listing response and `c2` of the DELETE
response play no part: when the listing is answered and its body decodes,
`deleteTXTRecord` returns nil if no record matches, and returns nil if a record
matches and its DELETE is answered; with an empty record list (a body without
`txt_records`) the listing GET is its only request. -/
theorem deleteTXTRecord_ignores_status {σ : Type} (lib : Lib) (net : Net σ)
    (zoneID fqdn value token : String) (s s1 : σ) (log : List Call)
    (c1 : Int) (h1 : List (String × String)) (body : String) (records : List TXTRecordEntry)
    (hurl : lib.ParseURL (dnsAPIBaseURL ++ zoneID ++ "/txt/") = none)
    (hdo : net.Do 10 (listRequest zoneID token) s = (.ok ⟨c1, h1, body⟩, s1))
    (hdec : lib.UnmarshalRecords body = .ok records) :
    (records.find? (recordMatches fqdn value) = none →
        deleteTXTRecord lib net zoneID fqdn value token s = (.ok (), s1))
    ∧ (∀ (r : TXTRecordEntry) (c2 : Int) (h2 : List (String × String)) (b2 : String) (s2 : σ),
        records.find? (recordMatches fqdn value) = some r →
        lib.ParseURL (dnsAPIBaseURL ++ zoneID ++ "/txt/" ++ r.UUID) = none →
        net.Do 10 (deleteRequest zoneID r.UUID token) s1 = (.ok ⟨c2, h2, b2⟩, s2) →
        deleteTXTRecord lib net zoneID fqdn value token s = (.ok (), s2))
    ∧ (records = [] →
        deleteTXTRecord lib net.recorded zoneID fqdn value token (s, log)
          = (.ok (), (s1, log ++ [Call.http 10 (listRequest zoneID token)]))) := by
  have hdo2 : net.recorded.Do 10 (listRequest zoneID token) (s, log)
      = (.ok ⟨c1, h1, body⟩, (s1, log ++ [Call.http 10 (listRequest zoneID token)])) := by
    rw [recorded_Do, hdo]
  refine ⟨?_, ?_, ?_⟩
  · intro hf
    rw [deleteTXTRecord_eq_loop lib net zoneID fqdn value token s s1 _ records hurl hdo hdec,
      deleteTXTRecord_loop_eq, hf]
  · intro r c2 h2 b2 s2 hf hp hd
    rw [deleteTXTRecord_eq_loop lib net zoneID fqdn value token s s1 _ records hurl hdo hdec,
      deleteTXTRecord_loop_eq, hf]
    simp [hp, hd]
  · intro hnil
    subst hnil
    rw [deleteTXTRecord_eq_loop lib net.recorded zoneID fqdn value token _ _ _ [] hurl hdo2 hdec]
    rfl

/-- C10, on a transport that answers the listing with status 500 and the DELETE
with status 503: the record is listed, its DELETE is sent, and `deleteTXTRecord`
returns nil. -/
theorem deleteTXTRecord_ignores_status_witness :
    deleteTXTRecord sampleLib busyNet "z1" "_acme-challenge.example.com." "XYZ123" "tok" ()
      = (.ok (), ()) :=
  (deleteTXTRecord_ignores_status sampleLib busyNet "z1" "_acme-challenge.example.com." "XYZ123"
    "tok" () () [] 500 []
    (sampleProvider.RenderRecords [⟨"r1", "_acme-challenge.example.com.", "XYZ123"⟩])
    [⟨"r1", "_acme-challenge.example.com.", "XYZ123"⟩]
    (by decide) (by rfl) (by rfl)).2.1 ⟨"r1", "_acme-challenge.example.com.", "XYZ123"⟩
    503 [] "busy" () (by decide) (by decide) (by rfl)

/-! ## Call logs of the stages -/

theorem authenticate_log {σ : Type} (lib : Lib) (net : Net σ) (ns : String)
    (ref : SecretReference) (s : σ) (log : List Call) :
    ∃ rest, (authenticate lib net.recorded ns ref (s, log)).2.2
      = log ++ Call.getSecret ns ref.Name :: rest := by
  unfold authenticate
  rw [recorded_GetSecret]
  cases (net.GetSecret ns ref.Name s).1 with
  | error e => exact ⟨[], rfl⟩
  | ok secret =>
    simp only
    cases lib.MarshalAuth (secret.get "os_username") (secret.get "os_password")
        (secret.get "os_domain_name") (secret.get "os_project_id") with
    | error e => exact ⟨[], rfl⟩
    | ok jsonBody =>
      simp only
      cases NewRequest lib "POST" (secret.get "os_auth_url") jsonBody with
      | error e => exact ⟨[], rfl⟩
      | ok req =>
        simp only [recorded_Do]
        cases (net.Do 0 ((req.set "Content-Type" "application/json").set "Accept"
            "application/json") (net.GetSecret ns ref.Name s).2).1 with
        | error e => exact ⟨_, List.append_assoc _ _ _⟩
        | ok resp =>
          simp only
          split <;> exact ⟨_, List.append_assoc _ _ _⟩

theorem getZoneID_log {σ : Type} (lib : Lib) (net : Net σ) (zone token : String)
    (s : σ) (log : List Call) :
    ∃ rest, (getZoneID lib net.recorded zone token (s, log)).2.2 = log ++ rest := by
  unfold getZoneID
  simp only
  cases NewRequest lib "GET" dnsAPIBaseURL "" with
  | error e => exact ⟨[], by simp⟩
  | ok req =>
    simp only [recorded_Do]
    cases (net.Do 30 (req.set "X-Auth-Token" token) s).1 with
    | error e => exact ⟨_, rfl⟩
    | ok resp =>
      simp only
      cases lib.UnmarshalZones resp.Body with
      | error e => exact ⟨_, rfl⟩
      | ok zones =>
        simp only
        cases getZoneID.loop zone zones <;> exact ⟨_, rfl⟩

theorem deleteTXTRecord_loop_log {σ : Type} (lib : Lib) (net : Net σ)
    (zoneID fqdn key token : String) (records : List TXTRecordEntry) (s : σ) (log : List Call) :
    ∃ rest, (deleteTXTRecord.loop lib net.recorded zoneID fqdn key token records (s, log)).2.2
      = log ++ rest := by
  rw [deleteTXTRecord_loop_eq]
  cases records.find? (recordMatches fqdn key) with
  | none => exact ⟨[], by simp⟩
  | some r =>
    simp only
    cases lib.ParseURL (dnsAPIBaseURL ++ zoneID ++ "/txt/" ++ r.UUID) with
    | some e => exact ⟨[], by simp⟩
    | none =>
      simp only [recorded_Do]
      cases (net.Do 10 (deleteRequest zoneID r.UUID token) s).1 <;> exact ⟨_, rfl⟩

theorem deleteTXTRecord_log_ext {σ : Type} (lib : Lib) (net : Net σ)
    (zoneID fqdn key token : String) (s : σ) (log : List Call) :
    ∃ rest, (deleteTXTRecord lib net.recorded zoneID fqdn key token (s, log)).2.2
      = log ++ rest := by
  unfold deleteTXTRecord
  simp only
  cases NewRequest lib "GET" (dnsAPIBaseURL ++ zoneID ++ "/txt/") "" with
  | error e => exact ⟨[], by simp⟩
  | ok req =>
    simp only [recorded_Do]
    cases (net.Do 10 ((req.set "X-Auth-Token" token).set "Content-Type" "application/json")
        s).1 with
    | error e => exact ⟨_, rfl⟩
    | ok resp =>
      simp only
      cases lib.UnmarshalRecords resp.Body with
      | error e => exact ⟨_, rfl⟩
      | ok records =>
        simp only
        obtain ⟨rest, hrest⟩ := deleteTXTRecord_loop_log lib net zoneID fqdn key token records
          (net.Do 10 ((req.set "X-Auth-Token" token).set "Content-Type" "application/json") s).2
          (log ++ [Call.http 10 ((req.set "X-Auth-Token" token).set "Content-Type"
            "application/json")])
        exact ⟨[_] ++ rest, by rw [hrest]; exact List.append_assoc _ _ _⟩

/-- The first call of `CleanUp` fetches the secret named by the config value that
`loadConfig` returned. -/
theorem CleanUp_log {σ : Type} (lib : Lib) (net : Net σ) (ch : ChallengeRequest)
    (s : σ) (log : List Call) :
    ∃ rest, (CleanUp lib net.recorded ch (s, log)).2.2
      = log ++ Call.getSecret ch.ResourceNamespace (loadConfig lib ch.Config).1.SecretRef.Name
          :: rest := by
  obtain ⟨r1, h1⟩ := authenticate_log lib net ch.ResourceNamespace
    (loadConfig lib ch.Config).1.SecretRef s log
  unfold CleanUp
  simp only
  rcases ha : authenticate lib net.recorded ch.ResourceNamespace
    (loadConfig lib ch.Config).1.SecretRef (s, log) with ⟨o1, s1, log1⟩
  rw [ha] at h1
  simp only at h1
  subst h1
  cases o1 with
  | err e => exact ⟨_, rfl⟩
  | panic => exact ⟨_, rfl⟩
  | ok tok =>
    simp only
    obtain ⟨r2, h2⟩ := getZoneID_log lib net ch.ResolvedZone tok s1
      (log ++ Call.getSecret ch.ResourceNamespace (loadConfig lib ch.Config).1.SecretRef.Name :: r1)
    rcases hz : getZoneID lib net.recorded ch.ResolvedZone tok
      (s1, log ++ Call.getSecret ch.ResourceNamespace
        (loadConfig lib ch.Config).1.SecretRef.Name :: r1) with ⟨o2, s2, log2⟩
    rw [hz] at h2
    simp only at h2
    subst h2
    cases o2 with
    | err e => exact ⟨r1 ++ r2, by simp⟩
    | panic => exact ⟨r1 ++ r2, by simp⟩
    | ok zid =>
      simp only
      obtain ⟨r3, h3⟩ := deleteTXTRecord_log_ext lib net zid ch.ResolvedFQDN ch.Key tok s2
        (log ++ Call.getSecret ch.ResourceNamespace
          (loadConfig lib ch.Config).1.SecretRef.Name :: r1 ++ r2)
      rcases hd : deleteTXTRecord lib net.recorded zid ch.ResolvedFQDN ch.Key tok
        (s2, log ++ Call.getSecret ch.ResourceNamespace
          (loadConfig lib ch.Config).1.SecretRef.Name :: r1 ++ r2) with ⟨o3, s3, log3⟩
      rw [hd] at h3
      simp only at h3
      subst h3
      cases o3 <;> exact ⟨r1 ++ r2 ++ r3, by simp⟩

/-! ## The two pipelines -/

theorem Present_config_err {σ : Type} (lib : Lib) (net : Net σ) (ch : ChallengeRequest) (s : σ)
    (e : String) (h : (loadConfig lib ch.Config).2 = some e) :
    Present lib net ch s = (.err e, s) := by
  rcases hl : loadConfig lib ch.Config with ⟨cfg, o⟩
  rw [hl] at h
  simp only at h
  subst h
  simp only [Present, hl]

theorem Present_auth_err {σ : Type} (lib : Lib) (net : Net σ) (ch : ChallengeRequest) (s s1 : σ)
    (cfg : vkcloudDNSConfig) (e : String)
    (hc : loadConfig lib ch.Config = (cfg, none))
    (ha : authenticate lib net ch.ResourceNamespace cfg.SecretRef s = (.err e, s1)) :
    Present lib net ch s = (.err ("failed to authenticate to VK Cloud: " ++ e), s1) := by
  simp only [Present, hc, ha]

theorem Present_zone_err {σ : Type} (lib : Lib) (net : Net σ) (ch : ChallengeRequest)
    (s s1 s2 : σ) (cfg : vkcloudDNSConfig) (tok e : String)
    (hc : loadConfig lib ch.Config = (cfg, none))
    (ha : authenticate lib net ch.ResourceNamespace cfg.SecretRef s = (.ok tok, s1))
    (hz : getZoneID lib net ch.ResolvedZone tok s1 = (.err e, s2)) :
    Present lib net ch s = (.err ("failed to find zone ID: " ++ e), s2) := by
  simp only [Present, hc, ha, hz]

theorem Present_create_err {σ : Type} (lib : Lib) (net : Net σ) (ch : ChallengeRequest)
    (s s1 s2 s3 : σ) (cfg : vkcloudDNSConfig) (tok zid e : String)
    (hc : loadConfig lib ch.Config = (cfg, none))
    (ha : authenticate lib net ch.ResourceNamespace cfg.SecretRef s = (.ok tok, s1))
    (hz : getZoneID lib net ch.ResolvedZone tok s1 = (.ok zid, s2))
    (hr : createTXTRecord lib net zid ch.ResolvedFQDN ch.Key tok s2 = (.err e, s3)) :
    Present lib net ch s = (.err ("failed to create TXT record: " ++ e), s3) := by
  simp only [Present, hc, ha, hz, hr]

theorem Present_ok {σ : Type} (lib : Lib) (net : Net σ) (ch : ChallengeRequest)
    (s s1 s2 s3 : σ) (cfg : vkcloudDNSConfig) (tok zid : String)
    (hc : loadConfig lib ch.Config = (cfg, none))
    (ha : authenticate lib net ch.ResourceNamespace cfg.SecretRef s = (.ok tok, s1))
    (hz : getZoneID lib net ch.ResolvedZone tok s1 = (.ok zid, s2))
    (hr : createTXTRecord lib net zid ch.ResolvedFQDN ch.Key tok s2 = (.ok (), s3)) :
    Present lib net ch s = (.ok (), s3) := by
  simp only [Present, hc, ha, hz, hr]

theorem CleanUp_auth_err {σ : Type} (lib : Lib) (net : Net σ) (ch : ChallengeRequest) (s s1 : σ)
    (e : String)
    (ha : authenticate lib net ch.ResourceNamespace (loadConfig lib ch.Config).1.SecretRef s
      = (.err e, s1)) :
    CleanUp lib net ch s = (.err e, s1) := by
  simp only [CleanUp, ha]

theorem CleanUp_zone_err {σ : Type} (lib : Lib) (net : Net σ) (ch : ChallengeRequest)
    (s s1 s2 : σ) (tok e : String)
    (ha : authenticate lib net ch.ResourceNamespace (loadConfig lib ch.Config).1.SecretRef s
      = (.ok tok, s1))
    (hz : getZoneID lib net ch.ResolvedZone tok s1 = (.err e, s2)) :
    CleanUp lib net ch s = (.err e, s2) := by
  simp only [CleanUp, ha, hz]

theorem CleanUp_delete_err {σ : Type} (lib : Lib) (net : Net σ) (ch : ChallengeRequest)
    (s s1 s2 s3 : σ) (tok zid e : String)
    (ha : authenticate lib net ch.ResourceNamespace (loadConfig lib ch.Config).1.SecretRef s
      = (.ok tok, s1))
    (hz : getZoneID lib net ch.ResolvedZone tok s1 = (.ok zid, s2))
    (hd : deleteTXTRecord lib net zid ch.ResolvedFQDN ch.Key tok s2 = (.err e, s3)) :
    CleanUp lib net ch s = (.err e, s3) := by
  simp only [CleanUp, ha, hz, hd]

theorem CleanUp_ok {σ : Type} (lib : Lib) (net : Net σ) (ch : ChallengeRequest)
    (s s1 s2 s3 : σ) (tok zid : String)
    (ha : authenticate lib net ch.ResourceNamespace (loadConfig lib ch.Config).1.SecretRef s
      = (.ok tok, s1))
    (hz : getZoneID lib net ch.ResolvedZone tok s1 = (.ok zid, s2))
    (hd : deleteTXTRecord lib net zid ch.ResolvedFQDN ch.Key tok s2 = (.ok (), s3)) :
    CleanUp lib net ch s = (.ok (), s3) := by
  simp only [CleanUp, ha, hz, hd]

theorem loadConfig_error_shape (lib : Lib) (cfgJSON : Option String) (e : String)
    (h : (loadConfig lib cfgJSON).2 = some e) :
    ∃ raw inner, cfgJSON = some raw ∧ (lib.UnmarshalConfig raw zeroConfig).2 = some inner
      ∧ e = "error decoding solver config: " ++ inner
      ∧ (loadConfig lib cfgJSON).1 = (lib.UnmarshalConfig raw zeroConfig).1 := by
  cases cfgJSON with
  | none => simp [loadConfig] at h
  | some raw =>
    rcases hu : lib.UnmarshalConfig raw zeroConfig with ⟨cfg1, o⟩
    cases o with
    | none => simp [loadConfig, hu] at h
    | some inner =>
      simp only [loadConfig, hu, Option.some.injEq] at h
      exact ⟨raw, inner, rfl, by rw [hu], h.symm, by simp [loadConfig, hu]⟩

/-- C5 (counterexample). A request whose config fails to decode: `CleanUp` goes on
to fetch the secret, authenticate, look the zone up and delete the record, and
returns nil. -/
theorem cleanUp_runs_after_config_error :
    (loadConfig sampleLib (sampleRequest (some mistypedPayload)).Config).2 ≠ none
    ∧ (CleanUp sampleLib sampleProvider.net.recorded (sampleRequest (some mistypedPayload))
        (singleCloud, [])).1 = .ok ()
    ∧ (CleanUp sampleLib sampleProvider.net.recorded (sampleRequest (some mistypedPayload))
        (singleCloud, [])).2.1 = emptyCloud
    ∧ (CleanUp sampleLib sampleProvider.net.recorded (sampleRequest (some mistypedPayload))
        (singleCloud, [])).2.2.length = 5 := by
  decide

/-- C5 (amended). In a recording world: `Present` stops at the first stage that
returns an error (config decode, authenticate, zone lookup, record creation) and
returns an error, the world and the call log being those the failing stage left;
an authentication failure is reported as `failed to authenticate to VK Cloud: ...`.
`CleanUp` does the same for authenticate, zone lookup and record deletion; its
config decode is no stopping stage: whatever `loadConfig` reports, `CleanUp` goes on
to fetch the secret. -/
theorem pipeline_stops_at_failing_stage {σ : Type} (lib : Lib) (net : Net σ)
    (ch : ChallengeRequest) (s : σ) (log : List Call) :
    (∀ e, (loadConfig lib ch.Config).2 = some e →
        Present lib net.recorded ch (s, log) = (.err e, (s, log)))
    ∧ (∀ cfg e st1, loadConfig lib ch.Config = (cfg, none) →
        authenticate lib net.recorded ch.ResourceNamespace cfg.SecretRef (s, log) = (.err e, st1) →
        Present lib net.recorded ch (s, log)
          = (.err ("failed to authenticate to VK Cloud: " ++ e), st1))
    ∧ (∀ cfg tok e st1 st2, loadConfig lib ch.Config = (cfg, none) →
        authenticate lib net.recorded ch.ResourceNamespace cfg.SecretRef (s, log) = (.ok tok, st1) →
        getZoneID lib net.recorded ch.ResolvedZone tok st1 = (.err e, st2) →
        ∃ msg, Present lib net.recorded ch (s, log) = (.err msg, st2))
    ∧ (∀ cfg tok zid e st1 st2 st3, loadConfig lib ch.Config = (cfg, none) →
        authenticate lib net.recorded ch.ResourceNamespace cfg.SecretRef (s, log) = (.ok tok, st1) →
        getZoneID lib net.recorded ch.ResolvedZone tok st1 = (.ok zid, st2) →
        createTXTRecord lib net.recorded zid ch.ResolvedFQDN ch.Key tok st2 = (.err e, st3) →
        ∃ msg, Present lib net.recorded ch (s, log) = (.err msg, st3))
    ∧ (∀ e st1,
        authenticate lib net.recorded ch.ResourceNamespace (loadConfig lib ch.Config).1.SecretRef
          (s, log) = (.err e, st1) →
        ∃ msg, CleanUp lib net.recorded ch (s, log) = (.err msg, st1))
    ∧ (∀ tok e st1 st2,
        authenticate lib net.recorded ch.ResourceNamespace (loadConfig lib ch.Config).1.SecretRef
          (s, log) = (.ok tok, st1) →
        getZoneID lib net.recorded ch.ResolvedZone tok st1 = (.err e, st2) →
        ∃ msg, CleanUp lib net.recorded ch (s, log) = (.err msg, st2))
    ∧ (∀ tok zid e st1 st2 st3,
        authenticate lib net.recorded ch.ResourceNamespace (loadConfig lib ch.Config).1.SecretRef
          (s, log) = (.ok tok, st1) →
        getZoneID lib net.recorded ch.ResolvedZone tok st1 = (.ok zid, st2) →
        deleteTXTRecord lib net.recorded zid ch.ResolvedFQDN ch.Key tok st2 = (.err e, st3) →
        ∃ msg, CleanUp lib net.recorded ch (s, log) = (.err msg, st3))
    ∧ (∃ rest, (CleanUp lib net.recorded ch (s, log)).2.2
        = log ++ Call.getSecret ch.ResourceNamespace (loadConfig lib ch.Config).1.SecretRef.Name
            :: rest) :=
  ⟨fun e h => Present_config_err lib net.recorded ch (s, log) e h,
   fun cfg e st1 hc ha => Present_auth_err lib net.recorded ch (s, log) st1 cfg e hc ha,
   fun cfg tok e st1 st2 hc ha hz =>
     ⟨_, Present_zone_err lib net.recorded ch (s, log) st1 st2 cfg tok e hc ha hz⟩,
   fun cfg tok zid e st1 st2 st3 hc ha hz hr =>
     ⟨_, Present_create_err lib net.recorded ch (s, log) st1 st2 st3 cfg tok zid e hc ha hz hr⟩,
   fun e st1 ha => ⟨_, CleanUp_auth_err lib net.recorded ch (s, log) st1 e ha⟩,
   fun tok e st1 st2 ha hz => ⟨_, CleanUp_zone_err lib net.recorded ch (s, log) st1 st2 tok e ha hz⟩,
   fun tok zid e st1 st2 st3 ha hz hd =>
     ⟨_, CleanUp_delete_err lib net.recorded ch (s, log) st1 st2 st3 tok zid e ha hz hd⟩,
   CleanUp_log lib net ch s log⟩

/-- C5, with an unreachable auth URL: `Present` reports the authentication stage,
and the only calls made are the secret lookup and the token request. -/
theorem pipeline_stops_at_failing_stage_witness :
    Present sampleLib offlineNet.recorded (sampleRequest (some goodPayload)) ((), [])
      = (.err "failed to authenticate to VK Cloud: authentication failed: dial tcp: connection refused",
          ((), [Call.getSecret "cert-manager" "vk-creds",
                Call.http 0 (authRequest sampleAuthURL
                  ⟨wireEncode ["u", "p", "users", "proj"]⟩)])) :=
  (pipeline_stops_at_failing_stage sampleLib offlineNet (sampleRequest (some goodPayload)) ()
    []).2.1 ⟨⟨"vk-creds", ""⟩, ""⟩ "authentication failed: dial tcp: connection refused"
    ((), [Call.getSecret "cert-manager" "vk-creds",
          Call.http 0 (authRequest sampleAuthURL ⟨wireEncode ["u", "p", "users", "proj"]⟩)])
    (by decide) (by decide)

/-- C8 (counterexample). The secret is missing: `CleanUp` returns the very message
`authenticate` returned, with nothing added. -/
theorem cleanUp_returns_stage_error_unchanged :
    (authenticate sampleLib busyNet "cert-manager" ⟨"vk-creds", ""⟩ ()).1
      = .err "failed to fetch secret \"vk-creds\": secrets vk-creds not found"
    ∧ (CleanUp sampleLib busyNet (sampleRequest (some goodPayload)) ()).1
      = .err "failed to fetch secret \"vk-creds\": secrets vk-creds not found" := by
  decide

/-- C8 (amended). `Present` returns the error of `authenticate`, `getZoneID` and
`createTXTRecord` with the prefix `failed to authenticate to VK Cloud: `,
`failed to find zone ID: ` and `failed to create TXT record: ` in front of the stage
message, and returns a config error as `loadConfig` made it, which is
`error decoding solver config: ` followed by the decoder message.  `CleanUp`
returns the error of `authenticate`, `getZoneID` and `deleteTXTRecord` unchanged. -/
theorem stage_errors_as_returned {σ : Type} (lib : Lib) (net : Net σ)
    (ch : ChallengeRequest) (s : σ) :
    (∀ e, (loadConfig lib ch.Config).2 = some e →
        (Present lib net ch s).1 = .err e
        ∧ ∃ raw inner, ch.Config = some raw ∧ (lib.UnmarshalConfig raw zeroConfig).2 = some inner
            ∧ e = "error decoding solver config: " ++ inner)
    ∧ (∀ cfg e s1, loadConfig lib ch.Config = (cfg, none) →
        authenticate lib net ch.ResourceNamespace cfg.SecretRef s = (.err e, s1) →
        (Present lib net ch s).1 = .err ("failed to authenticate to VK Cloud: " ++ e))
    ∧ (∀ cfg tok e s1 s2, loadConfig lib ch.Config = (cfg, none) →
        authenticate lib net ch.ResourceNamespace cfg.SecretRef s = (.ok tok, s1) →
        getZoneID lib net ch.ResolvedZone tok s1 = (.err e, s2) →
        (Present lib net ch s).1 = .err ("failed to find zone ID: " ++ e))
    ∧ (∀ cfg tok zid e s1 s2 s3, loadConfig lib ch.Config = (cfg, none) →
        authenticate lib net ch.ResourceNamespace cfg.SecretRef s = (.ok tok, s1) →
        getZoneID lib net ch.ResolvedZone tok s1 = (.ok zid, s2) →
        createTXTRecord lib net zid ch.ResolvedFQDN ch.Key tok s2 = (.err e, s3) →
        (Present lib net ch s).1 = .err ("failed to create TXT record: " ++ e))
    ∧ (∀ e s1,
        authenticate lib net ch.ResourceNamespace (loadConfig lib ch.Config).1.SecretRef s
          = (.err e, s1) →
        (CleanUp lib net ch s).1 = .err e)
    ∧ (∀ tok e s1 s2,
        authenticate lib net ch.ResourceNamespace (loadConfig lib ch.Config).1.SecretRef s
          = (.ok tok, s1) →
        getZoneID lib net ch.ResolvedZone tok s1 = (.err e, s2) →
        (CleanUp lib net ch s).1 = .err e)
    ∧ (∀ tok zid e s1 s2 s3,
        authenticate lib net ch.ResourceNamespace (loadConfig lib ch.Config).1.SecretRef s
          = (.ok tok, s1) →
        getZoneID lib net ch.ResolvedZone tok s1 = (.ok zid, s2) →
        deleteTXTRecord lib net zid ch.ResolvedFQDN ch.Key tok s2 = (.err e, s3) →
        (CleanUp lib net ch s).1 = .err e) := by
  refine ⟨?_, ?_, ?_, ?_, ?_, ?_, ?_⟩
  · intro e h
    refine ⟨by rw [Present_config_err lib net ch s e h], ?_⟩
    obtain ⟨raw, inner, h1, h2, h3, _⟩ := loadConfig_error_shape lib ch.Config e h
    exact ⟨raw, inner, h1, h2, h3⟩
  · intro cfg e s1 hc ha
    rw [Present_auth_err lib net ch s s1 cfg e hc ha]
  · intro cfg tok e s1 s2 hc ha hz
    rw [Present_zone_err lib net ch s s1 s2 cfg tok e hc ha hz]
  · intro cfg tok zid e s1 s2 s3 hc ha hz hr
    rw [Present_create_err lib net ch s s1 s2 s3 cfg tok zid e hc ha hz hr]
  · intro e s1 ha
    rw [CleanUp_auth_err lib net ch s s1 e ha]
  · intro tok e s1 s2 ha hz
    rw [CleanUp_zone_err lib net ch s s1 s2 tok e ha hz]
  · intro tok zid e s1 s2 s3 ha hz hd
    rw [CleanUp_delete_err lib net ch s s1 s2 s3 tok zid e ha hz hd]

/-- C8, on a zone list without the requested zone: `Present` prefixes the stage
name to the message of `getZoneID`. -/
theorem stage_errors_as_returned_witness :
    (Present sampleLib sampleProvider.net (sampleRequest (some goodPayload)) ⟨[], []⟩).1
      = .err "failed to find zone ID: zone not found for domain example.com." :=
  (stage_errors_as_returned sampleLib sampleProvider.net (sampleRequest (some goodPayload))
    ⟨[], []⟩).2.2.1 ⟨⟨"vk-creds", ""⟩, ""⟩ "tok" "zone not found for domain example.com."
    ⟨[], []⟩ ⟨[], []⟩ (by decide) (by decide) (by decide)

/-- C9 (counterexample). On a payload whose `domain` is a number, `loadConfig`
reports a decode error and still returns the `secretRef.name` already decoded;
`CleanUp` asks the secret store for that name, not for the empty string. -/
theorem cleanUp_uses_partially_decoded_config :
    (loadConfig sampleLib (sampleRequest (some mistypedPayload)).Config).2 ≠ none
    ∧ (loadConfig sampleLib (sampleRequest (some mistypedPayload)).Config).1.SecretRef.Name
        = "vk-creds"
    ∧ (CleanUp sampleLib sampleProvider.net.recorded (sampleRequest (some mistypedPayload))
        (emptyCloud, [])).2.2.head? = some (Call.getSecret "cert-manager" "vk-creds") := by
  decide

/-- C9 (amended). When `loadConfig` reports a decode error, `Present` returns that
error and makes no call at all, whereas `CleanUp` drops the error and goes on with
the config value `loadConfig` returned next to it, which is what `json.Unmarshal`
left in the zero-initialised struct: its first call fetches the secret named by
that value, the empty name when the decoder left the struct untouched. -/
theorem config_error_present_stops_cleanUp_goes_on {σ : Type} (lib : Lib) (net : Net σ)
    (ch : ChallengeRequest) (s : σ) (log : List Call) (e : String)
    (h : (loadConfig lib ch.Config).2 = some e) :
    Present lib net.recorded ch (s, log) = (.err e, (s, log))
    ∧ (∃ raw, ch.Config = some raw
        ∧ (loadConfig lib ch.Config).1 = (lib.UnmarshalConfig raw zeroConfig).1
        ∧ ∃ rest, (CleanUp lib net.recorded ch (s, log)).2.2
            = log ++ Call.getSecret ch.ResourceNamespace
                (lib.UnmarshalConfig raw zeroConfig).1.SecretRef.Name :: rest)
    ∧ ((loadConfig lib ch.Config).1 = zeroConfig →
        ∃ rest, (CleanUp lib net.recorded ch (s, log)).2.2
            = log ++ Call.getSecret ch.ResourceNamespace "" :: rest) := by
  have hlog : ∃ rest, (CleanUp lib net.recorded ch (s, log)).2.2
      = log ++ Call.getSecret ch.ResourceNamespace (loadConfig lib ch.Config).1.SecretRef.Name
          :: rest := CleanUp_log lib net ch s log
  refine ⟨Present_config_err lib net.recorded ch (s, log) e h, ?_, ?_⟩
  · obtain ⟨raw, inner, h1, _, _, h4⟩ := loadConfig_error_shape lib ch.Config e h
    exact ⟨raw, h1, h4, by rw [← h4]; exact hlog⟩
  · intro hz
    rw [hz] at hlog
    exact hlog

/-- C9, on a payload that is not JSON at all: `Present` stops without a call, and
`CleanUp` asks for the secret with the empty name. -/
theorem config_error_present_stops_cleanUp_goes_on_witness :
    Present sampleLib sampleProvider.net.recorded (sampleRequest (some "not json")) (emptyCloud, [])
      = (.err "error decoding solver config: invalid character in solver config", (emptyCloud, []))
    ∧ ∃ rest, (CleanUp sampleLib sampleProvider.net.recorded (sampleRequest (some "not json"))
        (emptyCloud, [])).2.2 = [] ++ Call.getSecret "cert-manager" "" :: rest :=
  ⟨(config_error_present_stops_cleanUp_goes_on sampleLib sampleProvider.net
      (sampleRequest (some "not json")) emptyCloud []
      "error decoding solver config: invalid character in solver config" (by decide)).1,
   (config_error_present_stops_cleanUp_goes_on sampleLib sampleProvider.net
      (sampleRequest (some "not json")) emptyCloud []
      "error decoding solver config: invalid character in solver config" (by decide)).2.2
      (by decide)⟩

/-! ## The provider model: routing -/

theorem takeWhile_segment (z rest : List Char) (h : '/' ∉ z) :
    (z ++ '/' :: rest).takeWhile (fun c => c != '/') = z := by
  induction z with
  | nil => simp
  | cons c cs ih =>
    have hc : c ≠ '/' := fun hc => h (by simp [hc])
    have hcs : '/' ∉ cs := fun hcs => h (by simp [hcs])
    simp [List.takeWhile_cons, hc, ih hcs]

theorem zone_url_data (zid tail : String) :
    (dnsAPIBaseURL ++ zid ++ "/txt/" ++ tail).data
      = dnsAPIBaseURL.data ++ (zid.data ++ '/' :: ('t' :: 'x' :: 't' :: '/' :: tail.data)) := by
  simp only [String.data_append, List.append_assoc]
  rfl

theorem route_zone_url (zid tail : String) (h : '/' ∉ zid.data) :
    route (dnsAPIBaseURL ++ zid ++ "/txt/" ++ tail) = some (zid, tail) := by
  have hpre : dnsAPIBaseURL.data.isPrefixOf
      (dnsAPIBaseURL.data ++ (zid.data ++ '/' :: ('t' :: 'x' :: 't' :: '/' :: tail.data))) = true := by
    rw [List.isPrefixOf_iff_prefix]
    exact List.prefix_append _ _
  have h5 : ("/txt/" : String).data = '/' :: ('t' :: 'x' :: 't' :: ['/']) := rfl
  unfold route
  rw [zone_url_data, if_pos hpre]
  simp only [List.drop_left, takeWhile_segment _ _ h, h5]
  simp

theorem zone_url_ne_base (zid tail : String) :
    dnsAPIBaseURL ++ zid ++ "/txt/" ++ tail ≠ dnsAPIBaseURL := by
  intro h
  have h2 := congrArg (fun x => x.data.length) h
  simp only [zone_url_data, List.length_append, List.length_cons] at h2
  omega

theorem route_none_of_not_isPrefixOf (url : String)
    (h : dnsAPIBaseURL.data.isPrefixOf url.data = false) : route url = none := by
  simp [route, h]

theorem ne_base_of_not_isPrefixOf (url : String)
    (h : dnsAPIBaseURL.data.isPrefixOf url.data = false) : url ≠ dnsAPIBaseURL := by
  intro hu
  subst hu
  have : dnsAPIBaseURL.data.isPrefixOf dnsAPIBaseURL.data = true := by
    rw [List.isPrefixOf_iff_prefix]
  rw [this] at h
  exact Bool.noConfusion h

/-! ## The provider model: one request at a time -/

theorem hasZone_of_find {zones : List ZoneEntry} {Q : String} {zone : ZoneEntry}
    (records : List (String × TXTRecord))
    (h : zones.find? (zoneMatches Q) = some zone) :
    (⟨zones, records⟩ : Cloud).hasZone zone.UUID = true := by
  simp only [Cloud.hasZone, List.any_eq_true, decide_eq_true_eq]
  exact ⟨zone, List.mem_of_find?_eq_some h, rfl⟩

theorem provider_zones (p : Provider) (token : String) (st : Cloud) :
    p.net.Do 30 (zonesRequest token) st = (.ok ⟨200, [], p.RenderZones st.Zones⟩, st) := by
  simp [Provider.net, Provider.Do, zonesRequest]

theorem provider_list (p : Provider) (zid token : String) (st : Cloud)
    (hseg : '/' ∉ zid.data) (hz : st.hasZone zid = true) :
    p.net.Do 10 (listRequest zid token) st
      = (.ok ⟨200, [], p.RenderRecords (st.recordsOf zid)⟩, st) := by
  have hr := route_zone_url zid "" hseg
  have hn := zone_url_ne_base zid ""
  rw [String.append_empty] at hr hn
  have hm : ("GET" : String) ≠ "DELETE" := by decide
  simp [Provider.net, Provider.Do, listRequest, hr, hn, hz, hm]

theorem provider_create (lib : Lib) (p : Provider) (hc : Compatible lib p)
    (zid fqdn key token : String) (st : Cloud)
    (hseg : '/' ∉ zid.data) (hz : st.hasZone zid = true) :
    p.net.Do 30 (createRequest lib zid fqdn key token) st
      = (.ok ⟨201, [], ""⟩, st.create p zid fqdn key 60) := by
  have hr := route_zone_url zid "" hseg
  have hn := zone_url_ne_base zid ""
  rw [String.append_empty] at hr hn
  have hm : ("POST" : String) ≠ "DELETE" := by decide
  have hm2 : ("POST" : String) ≠ "GET" := by decide
  simp [Provider.net, Provider.Do, createRequest, hr, hn, hz, hm, hm2, hc.record]

theorem provider_delete (p : Provider) (zid uuid token : String) (st : Cloud)
    (hseg : '/' ∉ zid.data) (hz : st.hasZone zid = true) :
    p.net.Do 10 (deleteRequest zid uuid token) st = (.ok ⟨204, [], ""⟩, st.delete zid uuid) := by
  have hr := route_zone_url zid uuid hseg
  have hn := zone_url_ne_base zid uuid
  simp [Provider.net, Provider.Do, deleteRequest, hr, hn, hz]

theorem provider_auth (p : Provider) (body : String) (st : Cloud)
    (hout : dnsAPIBaseURL.data.isPrefixOf p.AuthURL.data = false) :
    p.net.Do 0 (authRequest p.AuthURL body) st
      = (.ok ⟨201, [("X-Subject-Token", p.Token)], ""⟩, st) := by
  have hr := route_none_of_not_isPrefixOf p.AuthURL hout
  have hn := ne_base_of_not_isPrefixOf p.AuthURL hout
  simp [Provider.net, Provider.Do, authRequest, hr, hn]

theorem authRequest_eq (url body : String) :
    ((⟨"POST", url, [], body⟩ : Request).set "Content-Type" "application/json").set
      "Accept" "application/json" = authRequest url body := by
  simp [Request.set, headerSet, authRequest]

/-! ## The provider model: the stages -/

theorem scenario_authenticate {lib : Lib} {p : Provider} {ch : ChallengeRequest}
    {zones : List ZoneEntry} {zone : ZoneEntry} (h : Scenario lib p ch zones zone) (st : Cloud) :
    authenticate lib p.net ch.ResourceNamespace (loadConfig lib ch.Config).1.SecretRef st
      = (.ok p.Token, st) := by
  obtain ⟨secret, hs, hu⟩ := h.secret
  obtain ⟨b, hb⟩ := h.compat.auth (secret.get "os_username") (secret.get "os_password")
    (secret.get "os_domain_name") (secret.get "os_project_id")
  have hg : p.net.GetSecret ch.ResourceNamespace (loadConfig lib ch.Config).1.SecretRef.Name st
      = (.ok secret, st) := by
    simp [Provider.net, hs]
  have hget : headerGet [("X-Subject-Token", p.Token)] "X-Subject-Token" = p.Token := by
    simp [headerGet]
  simp only [authenticate, hg, hb, hu, NewRequest, h.authURL, authRequest_eq,
    provider_auth p b st h.outside, hget, if_neg h.token]

theorem scenario_getZoneID {lib : Lib} {p : Provider} {ch : ChallengeRequest}
    {zones : List ZoneEntry} {zone : ZoneEntry} (h : Scenario lib p ch zones zone)
    (records : List (String × TXTRecord)) (token : String) :
    getZoneID lib p.net ch.ResolvedZone token ⟨zones, records⟩
      = (.ok zone.UUID, ⟨zones, records⟩) := by
  simp only [getZoneID, NewRequest, h.baseURL, zonesRequest_eq, provider_zones, h.compat.zones,
    getZoneID_loop_eq_find, h.resolved, Option.map_some']

theorem scenario_createTXTRecord {lib : Lib} {p : Provider} {ch : ChallengeRequest}
    {zones : List ZoneEntry} {zone : ZoneEntry} (h : Scenario lib p ch zones zone)
    (records : List (String × TXTRecord)) (fqdn key token : String) :
    createTXTRecord lib p.net zone.UUID fqdn key token ⟨zones, records⟩
      = (.ok (), (⟨zones, records⟩ : Cloud).create p zone.UUID fqdn key 60) := by
  have hz := hasZone_of_find records h.resolved
  simp [createTXTRecord, NewRequest, h.listURL, createRequest_eq,
    provider_create lib p h.compat zone.UUID fqdn key token _ h.segment hz]

theorem scenario_deleteTXTRecord {lib : Lib} {p : Provider} {ch : ChallengeRequest}
    {zones : List ZoneEntry} {zone : ZoneEntry} (h : Scenario lib p ch zones zone)
    (records : List (String × TXTRecord)) (fqdn key token : String)
    (hurl : ∀ r, (Cloud.recordsOf ⟨zones, records⟩ zone.UUID).find? (recordMatches fqdn key)
        = some r → lib.ParseURL (dnsAPIBaseURL ++ zone.UUID ++ "/txt/" ++ r.UUID) = none) :
    deleteTXTRecord lib p.net zone.UUID fqdn key token ⟨zones, records⟩
      = (.ok (), (⟨zones, records⟩ : Cloud).cleaned zone.UUID fqdn key) := by
  have hz := hasZone_of_find records h.resolved
  rw [deleteTXTRecord_eq_loop lib p.net zone.UUID fqdn key token _ _ _ _ h.listURL
    (provider_list p zone.UUID token _ h.segment hz) (h.compat.records _),
    deleteTXTRecord_loop_eq, Cloud.cleaned]
  cases hf : (Cloud.recordsOf ⟨zones, records⟩ zone.UUID).find? (recordMatches fqdn key) with
  | none => rfl
  | some r =>
    simp only [hurl r hf, provider_delete p zone.UUID r.UUID token _ h.segment hz]

theorem scenario_Present {lib : Lib} {p : Provider} {ch : ChallengeRequest}
    {zones : List ZoneEntry} {zone : ZoneEntry} (h : Scenario lib p ch zones zone)
    (records : List (String × TXTRecord)) :
    Present lib p.net ch ⟨zones, records⟩
      = (.ok (), (⟨zones, records⟩ : Cloud).create p zone.UUID ch.ResolvedFQDN ch.Key 60) := by
  have hc : loadConfig lib ch.Config = ((loadConfig lib ch.Config).1, none) := by
    rw [← h.config]
  exact Present_ok lib p.net ch _ _ _ _ _ p.Token zone.UUID hc
    (scenario_authenticate h _) (scenario_getZoneID h records p.Token)
    (scenario_createTXTRecord h records ch.ResolvedFQDN ch.Key p.Token)

theorem scenario_CleanUp {lib : Lib} {p : Provider} {ch : ChallengeRequest}
    {zones : List ZoneEntry} {zone : ZoneEntry} (h : Scenario lib p ch zones zone)
    (records : List (String × TXTRecord))
    (hurl : ∀ r, (Cloud.recordsOf ⟨zones, records⟩ zone.UUID).find?
        (recordMatches ch.ResolvedFQDN ch.Key) = some r →
        lib.ParseURL (dnsAPIBaseURL ++ zone.UUID ++ "/txt/" ++ r.UUID) = none) :
    CleanUp lib p.net ch ⟨zones, records⟩
      = (.ok (), (⟨zones, records⟩ : Cloud).cleaned zone.UUID ch.ResolvedFQDN ch.Key) :=
  CleanUp_ok lib p.net ch _ _ _ _ p.Token zone.UUID
    (scenario_authenticate h _) (scenario_getZoneID h records p.Token)
    (scenario_deleteTXTRecord h records ch.ResolvedFQDN ch.Key p.Token hurl)

/-! ## The provider model: record lists -/

theorem recordsOf_eq_map (st : Cloud) (zid : String) :
    st.recordsOf zid = (st.storedOf zid).map TXTRecord.entry := by
  simp only [Cloud.recordsOf, Cloud.storedOf]
  induction st.Records with
  | nil => rfl
  | cons e es ih =>
    by_cases h : e.1 = zid
    · simp [List.filterMap_cons, h, ih, TXTRecord.entry]
    · simp [List.filterMap_cons, h, ih]

theorem storedOf_delete (st : Cloud) (zid uuid : String) :
    (st.delete zid uuid).storedOf zid
      = (st.storedOf zid).filter (fun r => !decide (r.UUID = uuid)) := by
  simp only [Cloud.delete, Cloud.storedOf]
  induction st.Records with
  | nil => rfl
  | cons e es ih =>
    by_cases h : e.1 = zid
    · by_cases hu : e.2.UUID = uuid
      · simp only [List.filter_cons, List.filterMap_cons, h, hu, decide_True, Bool.and_self,
          Bool.not_true, Bool.false_eq_true, if_false, if_true]
        exact ih
      · simp only [List.filter_cons, List.filterMap_cons, h, hu, decide_True, decide_False,
          Bool.and_false, Bool.not_false, if_true, ih]
    · simp only [List.filter_cons, List.filterMap_cons, h, decide_False, Bool.false_and,
        Bool.not_false, if_true, if_false, ih]

theorem entry_matches (fqdn key : String) (r : TXTRecord) :
    recordMatches fqdn key r.entry = decide (r.Name = fqdn ∧ r.Content = key) := rfl

theorem find_entry_none (st : Cloud) (zid fqdn key : String)
    (h : st.matching zid fqdn key = []) :
    (st.recordsOf zid).find? (recordMatches fqdn key) = none := by
  rw [recordsOf_eq_map, List.find?_eq_none]
  intro e he
  obtain ⟨r, hr, rfl⟩ := List.mem_map.mp he
  rw [entry_matches]
  intro hm
  have : r ∈ st.matching zid fqdn key := by
    simp only [Cloud.matching, List.mem_filter]
    exact ⟨hr, hm⟩
  rw [h] at this
  exact List.not_mem_nil _ this

theorem cleaned_of_no_match (st : Cloud) (zid fqdn key : String)
    (h : st.matching zid fqdn key = []) : st.cleaned zid fqdn key = st := by
  simp [Cloud.cleaned, find_entry_none st zid fqdn key h]

theorem delete_fresh (zones : List ZoneEntry) (records : List (String × TXTRecord))
    (zid : String) (new : TXTRecord) (hfresh : new.UUID ∉ records.map (fun e => e.2.UUID)) :
    (⟨zones, records ++ [(zid, new)]⟩ : Cloud).delete zid new.UUID = ⟨zones, records⟩ := by
  have hkeep : records.filter
      (fun e => !(decide (e.1 = zid) && decide (e.2.UUID = new.UUID))) = records := by
    rw [List.filter_eq_self]
    intro e he
    have hne : e.2.UUID ≠ new.UUID := by
      intro heq
      exact hfresh (List.mem_map.mpr ⟨e, he, heq⟩)
    simp [hne]
  have hdrop : List.filter (fun e => !(decide (e.1 = zid) && decide (e.2.UUID = new.UUID)))
      [(zid, new)] = [] := by simp
  simp only [Cloud.delete, List.filter_append, hkeep, hdrop, List.append_nil]

/-- After a create into a zone without a matching record, the first matching record
of the listing is the new one. -/
theorem find_after_create (zones : List ZoneEntry) (records : List (String × TXTRecord))
    (zid fqdn key : String) (new : TXTRecord)
    (hname : new.Name = fqdn) (hcontent : new.Content = key)
    (hnone : (⟨zones, records⟩ : Cloud).matching zid fqdn key = []) :
    ((⟨zones, records ++ [(zid, new)]⟩ : Cloud).recordsOf zid).find? (recordMatches fqdn key)
      = some new.entry := by
  have hold := find_entry_none ⟨zones, records⟩ zid fqdn key hnone
  have hm : recordMatches fqdn key new.entry = true := by
    simp [entry_matches, hname, hcontent]
  have hrec : (⟨zones, records ++ [(zid, new)]⟩ : Cloud).recordsOf zid
      = (⟨zones, records⟩ : Cloud).recordsOf zid ++ [new.entry] := by
    simp [Cloud.recordsOf, List.filterMap_append, TXTRecord.entry]
  rw [hrec, List.find?_append, hold]
  simp [hm]

theorem cleaned_after_create (zones : List ZoneEntry) (records : List (String × TXTRecord))
    (zid fqdn key : String) (new : TXTRecord)
    (hname : new.Name = fqdn) (hcontent : new.Content = key)
    (hfresh : new.UUID ∉ records.map (fun e => e.2.UUID))
    (hnone : (⟨zones, records⟩ : Cloud).matching zid fqdn key = []) :
    (⟨zones, records ++ [(zid, new)]⟩ : Cloud).cleaned zid fqdn key = ⟨zones, records⟩ := by
  simp only [Cloud.cleaned, find_after_create zones records zid fqdn key new hname hcontent hnone]
  exact delete_fresh zones records zid new hfresh

theorem matching_after_create (zones : List ZoneEntry) (records : List (String × TXTRecord))
    (zid fqdn key : String) (new : TXTRecord)
    (hname : new.Name = fqdn) (hcontent : new.Content = key)
    (hnone : (⟨zones, records⟩ : Cloud).matching zid fqdn key = []) :
    (⟨zones, records ++ [(zid, new)]⟩ : Cloud).matching zid fqdn key = [new] := by
  have hst : (⟨zones, records ++ [(zid, new)]⟩ : Cloud).storedOf zid
      = (⟨zones, records⟩ : Cloud).storedOf zid ++ [new] := by
    simp [Cloud.storedOf, List.filterMap_append]
  simp only [Cloud.matching] at hnone ⊢
  rw [hst, List.filter_append, hnone]
  simp [hname, hcontent]

theorem matching_cleaned (st : Cloud) (zid fqdn key : String)
    (hle : (st.matching zid fqdn key).length ≤ 1) :
    (st.cleaned zid fqdn key).matching zid fqdn key = [] := by
  cases hf : (st.recordsOf zid).find? (recordMatches fqdn key) with
  | none =>
    simp only [Cloud.cleaned, hf]
    rw [List.eq_nil_iff_forall_not_mem]
    intro y hy
    simp only [Cloud.matching, List.mem_filter] at hy
    have hn := List.find?_eq_none.mp hf y.entry
      (by rw [recordsOf_eq_map]; exact List.mem_map.mpr ⟨y, hy.1, rfl⟩)
    rw [entry_matches] at hn
    exact hn hy.2
  | some r =>
    simp only [Cloud.cleaned, hf]
    have hr := List.find?_some hf
    have hmem := List.mem_of_find?_eq_some hf
    rw [recordsOf_eq_map] at hmem
    obtain ⟨x, hx, hxr⟩ := List.mem_map.mp hmem
    rw [← hxr, entry_matches] at hr
    have hxm : x ∈ st.matching zid fqdn key := by
      simp only [Cloud.matching, List.mem_filter]
      exact ⟨hx, hr⟩
    rw [List.eq_nil_iff_forall_not_mem]
    intro y hy
    simp only [Cloud.matching, storedOf_delete, List.mem_filter] at hy
    obtain ⟨⟨hyS, hyu⟩, hym⟩ := hy
    have hym2 : y ∈ st.matching zid fqdn key := by
      simp only [Cloud.matching, List.mem_filter]
      exact ⟨hyS, hym⟩
    have hxy : y = x := by
      match hl : st.matching zid fqdn key, hle, hxm, hym2 with
      | [], _, hxm, _ => exact absurd hxm (List.not_mem_nil _)
      | [a], _, hxm, hym2 =>
        rw [List.mem_singleton] at hxm hym2
        rw [hxm, hym2]
      | a :: b :: t, hle, _, _ => simp at hle
    have : r.UUID = x.UUID := by rw [← hxr]; rfl
    simp [hxy, this] at hyu

/-! ## The sample world is a scenario -/

theorem wireScan_item (cs rest : List Char) (l : List String)
    (h : wireScan false rest = some l) :
    wireScan false (wireItem cs ++ rest) = some (⟨cs⟩ :: l) := by
  induction cs with
  | nil =>
    simp [wireItem, wireScan, h]
  | cons c cs ih => simp [wireItem, wireScan, ih]

theorem wireDecode_encode (l : List String) : wireDecode (wireEncode l) = some l := by
  unfold wireDecode
  induction l with
  | nil => simp [wireEncode, wireScan]
  | cons s ss ih => exact wireScan_item s.data (wireEncode ss) ss ih

theorem itemsZones_zoneItems (l : List ZoneEntry) : itemsZones (zoneItems l) = some l := by
  induction l with
  | nil => rfl
  | cons z zs ih => simp [zoneItems, itemsZones, ih]

theorem itemsRecords_recordItems (l : List TXTRecordEntry) :
    itemsRecords (recordItems l) = some l := by
  induction l with
  | nil => rfl
  | cons r rs ih => simp [recordItems, itemsRecords, ih]

theorem length_le_sum_of_mem (x : String) (l : List String) (h : x ∈ l) :
    x.data.length ≤ (l.map (fun s => s.data.length)).sum := by
  induction l with
  | nil => exact absurd h (List.not_mem_nil _)
  | cons a as ih =>
    rcases List.mem_cons.mp h with rfl | h2
    · simp
    · have := ih h2
      simp only [List.map_cons, List.sum_cons]
      omega

theorem sample_compatible : Compatible sampleLib sampleProvider where
  zones l := by
    simp [sampleLib, sampleProvider, wireDecode_encode, itemsZones_zoneItems]
  records l := by
    simp [sampleLib, sampleProvider, wireDecode_encode, itemsRecords_recordItems]
  record name content := by
    simp [sampleLib, sampleProvider, wireDecode_encode]
    rfl
  auth u pw d pr := ⟨_, rfl⟩
  fresh l := by
    intro hmem
    have := length_le_sum_of_mem _ l hmem
    simp [sampleProvider] at this

theorem sample_scenario :
    Scenario sampleLib sampleProvider (sampleRequest (some goodPayload)) sampleZones
      ⟨"z1", "example.com."⟩ where
  compat := sample_compatible
  config := by decide
  secret := ⟨sampleSecret, by rfl, by decide⟩
  token := by decide
  outside := by decide
  authURL := rfl
  baseURL := rfl
  listURL := rfl
  resolved := by decide
  segment := by decide

/-! ## The end-to-end scenario -/

/-- C6. In the provider model, for a request with a valid credential whose zone
exists and holds no record with the challenge name and content, the URL of the
record about to be created being well formed: `Present` returns nil and appends
one record, which is then the only record of the zone with that name and content
and has ttl 60; a `CleanUp` with the same request returns nil and restores the
record list; a second `CleanUp` returns nil and leaves the record list unchanged. -/
theorem present_then_cleanUp_twice (lib : Lib) (p : Provider) (ch : ChallengeRequest)
    (zones : List ZoneEntry) (zone : ZoneEntry) (records : List (String × TXTRecord))
    (h : Scenario lib p ch zones zone)
    (hurl : lib.ParseURL (dnsAPIBaseURL ++ zone.UUID ++ "/txt/"
        ++ p.FreshID (records.map (fun e => e.2.UUID))) = none)
    (hnone : (⟨zones, records⟩ : Cloud).matching zone.UUID ch.ResolvedFQDN ch.Key = []) :
    Present lib p.net ch ⟨zones, records⟩
      = (.ok (), ⟨zones, records ++ [(zone.UUID,
          ⟨p.FreshID (records.map (fun e => e.2.UUID)), ch.ResolvedFQDN, ch.Key, 60⟩)]⟩)
    ∧ (Present lib p.net ch ⟨zones, records⟩).2.matching zone.UUID ch.ResolvedFQDN ch.Key
      = [⟨p.FreshID (records.map (fun e => e.2.UUID)), ch.ResolvedFQDN, ch.Key, 60⟩]
    ∧ CleanUp lib p.net ch (Present lib p.net ch ⟨zones, records⟩).2 = (.ok (), ⟨zones, records⟩)
    ∧ CleanUp lib p.net ch (CleanUp lib p.net ch (Present lib p.net ch ⟨zones, records⟩).2).2
      = (.ok (), ⟨zones, records⟩) := by
  have hP : Present lib p.net ch ⟨zones, records⟩
      = (.ok (), ⟨zones, records ++ [(zone.UUID,
          ⟨p.FreshID (records.map (fun e => e.2.UUID)), ch.ResolvedFQDN, ch.Key, 60⟩)]⟩) := by
    rw [scenario_Present h records]
    rfl
  have hC1 : CleanUp lib p.net ch ⟨zones, records ++ [(zone.UUID,
      ⟨p.FreshID (records.map (fun e => e.2.UUID)), ch.ResolvedFQDN, ch.Key, 60⟩)]⟩
      = (.ok (), ⟨zones, records⟩) := by
    have hfind := find_after_create zones records zone.UUID ch.ResolvedFQDN ch.Key
      ⟨p.FreshID (records.map (fun e => e.2.UUID)), ch.ResolvedFQDN, ch.Key, 60⟩ rfl rfl hnone
    rw [scenario_CleanUp h _ (by
        intro r hr
        rw [hfind] at hr
        cases hr
        exact hurl),
      cleaned_after_create zones records zone.UUID ch.ResolvedFQDN ch.Key _
        rfl rfl (h.compat.fresh _) hnone]
  have hC2 : CleanUp lib p.net ch ⟨zones, records⟩ = (.ok (), ⟨zones, records⟩) := by
    rw [scenario_CleanUp h _ (by
        intro r hr
        rw [find_entry_none _ _ _ _ hnone] at hr
        cases hr),
      cleaned_of_no_match _ _ _ _ hnone]
  refine ⟨hP, ?_, ?_, ?_⟩
  · rw [hP]
    exact matching_after_create zones records zone.UUID ch.ResolvedFQDN ch.Key _ rfl rfl hnone
  · rw [hP]
    exact hC1
  · rw [hP]
    simp only [hC1, hC2]

/-- C6, on the request of the specification with the zone `example.com.` and no
record: after `Present` the zone holds the one record, after `CleanUp` none, and
a second `CleanUp` changes nothing. -/
theorem present_then_cleanUp_twice_witness :
    Present sampleLib sampleProvider.net (sampleRequest (some goodPayload)) emptyCloud
      = (.ok (), ⟨sampleZones,
          [("z1", ⟨"r", "_acme-challenge.example.com.", "XYZ123", 60⟩)]⟩)
    ∧ CleanUp sampleLib sampleProvider.net (sampleRequest (some goodPayload))
        (Present sampleLib sampleProvider.net (sampleRequest (some goodPayload)) emptyCloud).2
      = (.ok (), emptyCloud)
    ∧ CleanUp sampleLib sampleProvider.net (sampleRequest (some goodPayload))
        (CleanUp sampleLib sampleProvider.net (sampleRequest (some goodPayload))
          (Present sampleLib sampleProvider.net (sampleRequest (some goodPayload)) emptyCloud).2).2
      = (.ok (), emptyCloud) :=
  ⟨(present_then_cleanUp_twice sampleLib sampleProvider (sampleRequest (some goodPayload))
      sampleZones ⟨"z1", "example.com."⟩ [] sample_scenario (by rfl) (by decide)).1,
   (present_then_cleanUp_twice sampleLib sampleProvider (sampleRequest (some goodPayload))
      sampleZones ⟨"z1", "example.com."⟩ [] sample_scenario (by rfl) (by decide)).2.2.1,
   (present_then_cleanUp_twice sampleLib sampleProvider (sampleRequest (some goodPayload))
      sampleZones ⟨"z1", "example.com."⟩ [] sample_scenario (by rfl) (by decide)).2.2.2⟩

/-- C7 (counterexample). The zone holds the challenge record twice: `CleanUp`
returns nil and one record with that name and content is still there. -/
theorem cleanUp_leaves_duplicate :
    CleanUp sampleLib sampleProvider.net (sampleRequest (some goodPayload)) duplicateCloud
      = (.ok (), ⟨sampleZones, [("z1", ⟨"r2", "_acme-challenge.example.com.", "XYZ123", 60⟩)]⟩)
    ∧ (CleanUp sampleLib sampleProvider.net (sampleRequest (some goodPayload))
        duplicateCloud).2.matching "z1" "_acme-challenge.example.com." "XYZ123"
      = [⟨"r2", "_acme-challenge.example.com.", "XYZ123", 60⟩] := by
  decide

/-- C7 (amended). In the provider model, for a request with a valid credential and
an existing zone, the DELETE url of the selected record being well formed:
`CleanUp` returns nil and deletes by id the first record, in list order, of the
resolved zone with the challenge name and content, however many such records the
zone holds; when the zone held at most one such record before the call, none
remains after it. -/
theorem cleanUp_deletes_first_match (lib : Lib) (p : Provider) (ch : ChallengeRequest)
    (zones : List ZoneEntry) (zone : ZoneEntry) (records : List (String × TXTRecord))
    (h : Scenario lib p ch zones zone)
    (hurl : ∀ r, (Cloud.recordsOf ⟨zones, records⟩ zone.UUID).find?
        (recordMatches ch.ResolvedFQDN ch.Key) = some r →
        lib.ParseURL (dnsAPIBaseURL ++ zone.UUID ++ "/txt/" ++ r.UUID) = none) :
    (CleanUp lib p.net ch ⟨zones, records⟩).1 = .ok ()
    ∧ (CleanUp lib p.net ch ⟨zones, records⟩).2
      = (match (Cloud.recordsOf ⟨zones, records⟩ zone.UUID).find?
            (recordMatches ch.ResolvedFQDN ch.Key) with
         | none => ⟨zones, records⟩
         | some r => Cloud.delete ⟨zones, records⟩ zone.UUID r.UUID)
    ∧ (∀ r, (Cloud.recordsOf ⟨zones, records⟩ zone.UUID).find?
          (recordMatches ch.ResolvedFQDN ch.Key) = some r →
        (∃ pre post, Cloud.recordsOf ⟨zones, records⟩ zone.UUID = pre ++ r :: post
          ∧ (∀ x ∈ pre, ¬ (x.Name = ch.ResolvedFQDN ∧ x.Content = ch.Key))
          ∧ r.Name = ch.ResolvedFQDN ∧ r.Content = ch.Key)
        ∧ (CleanUp lib p.net ch ⟨zones, records⟩).2.storedOf zone.UUID
          = (Cloud.storedOf ⟨zones, records⟩ zone.UUID).filter
              (fun x => !decide (x.UUID = r.UUID)))
    ∧ ((Cloud.recordsOf ⟨zones, records⟩ zone.UUID).find?
          (recordMatches ch.ResolvedFQDN ch.Key) = none →
        (CleanUp lib p.net ch ⟨zones, records⟩).2 = ⟨zones, records⟩)
    ∧ (((⟨zones, records⟩ : Cloud).matching zone.UUID ch.ResolvedFQDN ch.Key).length ≤ 1 →
        (CleanUp lib p.net ch ⟨zones, records⟩).2.matching zone.UUID ch.ResolvedFQDN ch.Key
          = []) := by
  rw [scenario_CleanUp h records hurl]
  refine ⟨rfl, rfl, ?_, ?_, fun hle => matching_cleaned _ _ _ _ hle⟩
  · intro r hf
    obtain ⟨hr, pre, post, hsplit, hpre⟩ := List.find?_eq_some.mp hf
    have hr2 : r.Name = ch.ResolvedFQDN ∧ r.Content = ch.Key := by
      simpa [recordMatches] using hr
    refine ⟨⟨pre, post, hsplit, ?_, hr2.1, hr2.2⟩, ?_⟩
    · intro x hx hxm
      have hx2 := hpre x hx
      simp [recordMatches, hxm.1, hxm.2] at hx2
    · simp only [Cloud.cleaned, hf]
      exact storedOf_delete _ _ _
  · intro hf
    simp only [Cloud.cleaned, hf]

/-- C7, on a zone holding the challenge record once, where none remains after
`CleanUp`, and on a zone holding it twice, where the first is the one deleted. -/
theorem cleanUp_deletes_first_match_witness :
    ((CleanUp sampleLib sampleProvider.net (sampleRequest (some goodPayload)) singleCloud).1
        = .ok ()
      ∧ (CleanUp sampleLib sampleProvider.net (sampleRequest (some goodPayload))
          singleCloud).2.matching "z1" "_acme-challenge.example.com." "XYZ123" = [])
    ∧ (CleanUp sampleLib sampleProvider.net (sampleRequest (some goodPayload)) duplicateCloud).2
        = Cloud.delete duplicateCloud "z1" "r1" :=
  ⟨⟨(cleanUp_deletes_first_match sampleLib sampleProvider (sampleRequest (some goodPayload))
        sampleZones ⟨"z1", "example.com."⟩
        [("z1", ⟨"r1", "_acme-challenge.example.com.", "XYZ123", 60⟩)] sample_scenario
        (fun _ _ => rfl)).1,
     (cleanUp_deletes_first_match sampleLib sampleProvider (sampleRequest (some goodPayload))
        sampleZones ⟨"z1", "example.com."⟩
        [("z1", ⟨"r1", "_acme-challenge.example.com.", "XYZ123", 60⟩)] sample_scenario
        (fun _ _ => rfl)).2.2.2.2 (by decide)⟩,
   (cleanUp_deletes_first_match sampleLib sampleProvider (sampleRequest (some goodPayload))
      sampleZones ⟨"z1", "example.com."⟩
      [("z1", ⟨"r1", "_acme-challenge.example.com.", "XYZ123", 60⟩),
       ("z1", ⟨"r2", "_acme-challenge.example.com.", "XYZ123", 60⟩)] sample_scenario
      (fun _ _ => rfl)).2.1⟩

end VKCloud
